import Mathlib

/-!
# trireme-kubernetes: configuration validation and the namespace watcher

A shallow embedding of `config/config.go` (`validateConfig`, `parseTriremeNets`)
and of `resolver/namespace.go` (`stopWatchingNamespace`,
`startWatchingNamespace`), with the properties of the specification proved
about it.

Conventions of the embedding

* A Go `error` is an `Option String`: `none` is `nil`, `some msg` is an error
  whose text is `msg`.
* `validateConfig` mutates the structure behind its pointer argument; the
  embedding returns the structure after the call together with the error.
* The process environment (`os.Getenv`) and the library function
  `net.ParseCIDR` are parameters of the functions that use them.
* A Go string is a `String`; `strings.Fields` and `unicode.IsSpace` of the Go
  library are embedded as `Fields` and `isSpace`.
* A channel operation of the dispatch loop is one element of a trace of
  `select` outcomes; a send of the stop operation is one element of the list
  of sends it performs.
* A handler is a function on a state of the caller that may not return; the
  loop records what it does as a list of steps.
-/

set_option autoImplicit false

namespace Trireme

/-! ## `config/config.go` -/

namespace Config

/-- The Go constant `DefaultKubeConfigLocation`. -/
def DefaultKubeConfigLocation : String := "/.kube/config"

/-- The Go structure `Configuration`, field by field. -/
structure Configuration where
  AuthType : String
  KubeNodeName : String
  PKIDirectory : String
  TriremePSK : String
  RemoteEnforcer : Bool
  TriremeNetworks : String
  ParsedTriremeNetworks : List String
  KubeconfigPath : String
  LogLevel : String
  Enforce : Bool
  deriving DecidableEq, Repr

/-- The Go library predicate `unicode.IsSpace`: the code points with the
Unicode White_Space property. -/
def isSpace (c : Char) : Bool :=
  let n := c.toNat
  (9 ≤ n && n ≤ 13) || n = 32 || n = 133 || n = 160 || n = 5760 ||
    (8192 ≤ n && n ≤ 8202) || n = 8232 || n = 8233 || n = 8239 || n = 8287 || n = 12288

/-- The scanning loop of the Go library function `strings.Fields`: `cur` holds
the characters of the field being read, most recent first. -/
def fieldsFrom : List Char → List Char → List String
  | cur, [] => if cur = [] then [] else [String.mk cur.reverse]
  | cur, c :: cs =>
    if isSpace c then
      if cur = [] then fieldsFrom [] cs else String.mk cur.reverse :: fieldsFrom [] cs
    else fieldsFrom (c :: cur) cs

/-- The Go library function `strings.Fields`: the maximal runs of
non-white-space characters of `s`, in order. -/
def Fields (s : String) : List String := fieldsFrom [] s.data

/-- The `for _, network := range resultNets` loop of `parseTriremeNets`: the
error of the first network that `net.ParseCIDR` rejects, `none` when the loop
runs to its end. -/
def checkNetworks (parseCIDR : String → Option String) : List String → Option String
  | [] => none
  | network :: rest =>
    match parseCIDR network with
    | some err => some ("Invalid CIDR: " ++ err)
    | none => checkNetworks parseCIDR rest

/-- The Go function `parseTriremeNets`. `parseCIDR` is the error result of
`net.ParseCIDR` (the two other results are discarded by the code). -/
def parseTriremeNets (parseCIDR : String → Option String) (nets : String) :
    Except String (List String) :=
  let resultNets := Fields nets
  match checkNetworks parseCIDR resultNets with
  | some err => Except.error err
  | none => Except.ok resultNets

/-- The first block of `validateConfig`: the inference of the kubeconfig
location. `getenv` is `os.Getenv`. -/
def settleKubeconfig (getenv : String → String) (config : Configuration) : Configuration :=
  if getenv "KUBERNETES_PORT" = "" then
    if config.KubeconfigPath = "" then
      { config with KubeconfigPath := getenv "HOME" ++ DefaultKubeConfigLocation }
    else config
  else { config with KubeconfigPath := "" }

/-- The Go function `validateConfig`: the structure after the call and the
returned error. -/
def validateConfig (getenv : String → String) (parseCIDR : String → Option String)
    (config : Configuration) : Configuration × Option String :=
  let config := settleKubeconfig getenv config
  if !config.Enforce && config.KubeNodeName = "" then
    (config, some "Couldn't load NodeName. Ensure Kubernetes Nodename is given as a parameter")
  else if config.AuthType ≠ "PSK" && config.AuthType ≠ "PKI" then
    (config, some "AuthType should be PSK or PKI")
  else if config.AuthType = "PSK" && config.TriremePSK = "" then
    (config, some "PSK should be provided")
  else
    match parseTriremeNets parseCIDR config.TriremeNetworks with
    | Except.error err => (config, some ("TargetNetwork is invalid: " ++ err))
    | Except.ok parsedTriremeNetworks =>
      ({ config with ParsedTriremeNetworks := parsedTriremeNetworks }, none)

/-- A string is a valid CIDR when `net.ParseCIDR` returns no error for it. -/
def validCIDR (parseCIDR : String → Option String) (s : String) : Prop :=
  parseCIDR s = none

instance (parseCIDR : String → Option String) (s : String) :
    Decidable (validCIDR parseCIDR s) := by
  unfold validCIDR; infer_instance

/-- A sample of `net.ParseCIDR` on a few inputs, used to evaluate the
definitions at concrete configurations (the theorems hold for every
`parseCIDR`). -/
def sampleParseCIDR (s : String) : Option String :=
  if s = "10.0.0.0/8" ∨ s = "172.17.0.0/16" ∨ s = "192.168.1.0/24" then none
  else some ("invalid CIDR address: " ++ s)

/-- A sample environment: not in a cluster, `HOME` is `/root`. -/
def sampleEnv (name : String) : String :=
  if name = "HOME" then "/root" else ""

/-- A sample configuration as `LoadConfig` builds it from its defaults and a
node name. -/
def sampleConfig : Configuration where
  AuthType := "PSK"
  KubeNodeName := "node1"
  PKIDirectory := ""
  TriremePSK := "PSK"
  RemoteEnforcer := true
  TriremeNetworks := "10.0.0.0/8  172.17.0.0/16"
  ParsedTriremeNetworks := []
  KubeconfigPath := ""
  LogLevel := "info"
  Enforce := false

end Config

/-! ## `resolver/namespace.go` -/

namespace Resolver

/-- Modelled from the spec: the change kind of a watch event (`watch.EventType`
of the Kubernetes library, which is not part of the sources): added, modified,
deleted or error. -/
inductive EventType
  | Added
  | Modified
  | Deleted
  | Error
  deriving DecidableEq, Repr

/-- The dynamic value of the interface `runtime.Object` carried by a watch
event: a `*api.Pod`, a `*extensions.NetworkPolicy`, or a value of any other
type (named by `typeName`; the nil interface is one of them). The records
themselves are never inspected by the code and are type parameters. -/
inductive Object (Pod NetworkPolicy : Type)
  | pod (p : Pod)
  | networkPolicy (np : NetworkPolicy)
  | other (typeName : String)
  deriving DecidableEq, Repr

/-- The library structure `watch.Event`: its fields `Type` and `Object`. -/
structure Event (Pod NetworkPolicy : Type) where
  Typ : EventType
  Obj : Object Pod NetworkPolicy
  deriving DecidableEq, Repr

/-- The five channels of a `NamespaceWatcher`. -/
inductive Chan
  | podResultChan
  | policyResultChan
  | namespaceStopChan
  | podStopChan
  | policyStopChan
  deriving DecidableEq, Repr

/-- The Go structure `NamespaceWatcher`: its field `namespace` (a reserved word
here, hence `namespaceName`); its channels are the constructors of
`Chan`. -/
structure NamespaceWatcher where
  namespaceName : String
  deriving DecidableEq, Repr

/-! ### `stopWatchingNamespace` -/

/-- A send statement `ch <- v` of a boolean on a channel. -/
structure Send where
  chan : Chan
  value : Bool
  deriving DecidableEq, Repr

/-- What a sequence of blocking sends did: the sends it started, the sends
that completed, and whether the function returned. -/
structure StopRun where
  attempted : List Send
  completed : List Send
  returned : Bool
  deriving DecidableEq, Repr

/-- Sequential execution of send statements on unbuffered channels. `taken done s`
tells whether a receiver takes the send `s` once the sends `done` have
completed; a send that is never taken blocks, and nothing after it runs. -/
def performSends (taken : List Send → Send → Bool) : List Send → List Send → StopRun
  | done, [] => { attempted := done, completed := done, returned := true }
  | done, s :: rest =>
    if taken done s then performSends taken (done ++ [s]) rest
    else { attempted := done ++ [s], completed := done, returned := false }

/-- The Go method `stopWatchingNamespace`: its three send statements in source
order. -/
def stopWatchingNamespace (taken : List Send → Send → Bool) : StopRun :=
  performSends taken []
    [ { chan := Chan.podStopChan, value := true },
      { chan := Chan.policyStopChan, value := true },
      { chan := Chan.namespaceStopChan, value := true } ]

/-! ### `startWatchingNamespace` -/

/-- One outcome of the `select` statement of the loop: the case that fired and
the value received. -/
inductive Signal (Pod NetworkPolicy : Type)
  | namespaceStop (v : Bool)
  | podResult (req : Event Pod NetworkPolicy)
  | policyResult (req : Event Pod NetworkPolicy)
  deriving DecidableEq, Repr

/-- A handler invocation with its arguments. -/
inductive Call (Pod NetworkPolicy : Type)
  | pod (p : Pod) (t : EventType)
  | policy (np : NetworkPolicy) (t : EventType)
  deriving DecidableEq, Repr

/-- The handler `podEventHandler func(*api.Pod, watch.EventType) error`, acting
on a state `W` of the caller: `none` when the call never returns, otherwise the
state after the call and the returned error. -/
abbrev PodHandler (W Pod : Type) := W → Pod → EventType → Option (W × Option String)

/-- The handler `networkPolicyEventHandler`, likewise. -/
abbrev PolicyHandler (W NetworkPolicy : Type) :=
  W → NetworkPolicy → EventType → Option (W × Option String)

/-- What the loop does, step by step. -/
inductive Step (Pod NetworkPolicy : Type)
  | received (s : Signal Pod NetworkPolicy)
  | glog (msg : String)
  | invoked (c : Call Pod NetworkPolicy)
  | handlerReturned
  deriving DecidableEq, Repr

/-- How an execution of the loop over a finite trace ends: the `return` of the
stop case, a failed type assertion, a handler call that never returns, or the
`select` waiting for a signal beyond the end of the trace. -/
inductive Exit
  | returned
  | panicked
  | handlerBlocked
  | awaiting
  deriving DecidableEq, Repr

/-- An execution of the loop: the caller state, the steps taken, how it ended
and the signals of the trace it did not consume. -/
structure Run (W Pod NetworkPolicy : Type) where
  world : W
  steps : List (Step Pod NetworkPolicy)
  exit : Exit
  pending : List (Signal Pod NetworkPolicy)

variable {W Pod NetworkPolicy : Type}

/-- An execution preceded by the steps `pre`. -/
def Run.after (pre : List (Step Pod NetworkPolicy)) (r : Run W Pod NetworkPolicy) :
    Run W Pod NetworkPolicy :=
  { r with steps := pre ++ r.steps }

/-- The Go method `startWatchingNamespace`, run from the caller state `w` over
a trace of `select` outcomes. -/
def startWatchingNamespace (n : NamespaceWatcher)
    (podEventHandler : PodHandler W Pod)
    (networkPolicyEventHandler : PolicyHandler W NetworkPolicy) :
    W → List (Signal Pod NetworkPolicy) → Run W Pod NetworkPolicy
  | w, [] => { world := w, steps := [], exit := Exit.awaiting, pending := [] }
  | w, Signal.namespaceStop v :: rest =>
    { world := w
      steps := [Step.received (Signal.namespaceStop v),
        Step.glog ("Received Stop signal for Namespace: " ++ n.namespaceName)]
      exit := Exit.returned
      pending := rest }
  | w, Signal.podResult req :: rest =>
    let pre := [Step.received (Signal.podResult req),
      Step.glog ("Processing PodEvent for Namespace: " ++ n.namespaceName)]
    match req.Obj with
    | Object.pod p =>
      match podEventHandler w p req.Typ with
      | none =>
        { world := w, steps := pre ++ [Step.invoked (Call.pod p req.Typ)],
          exit := Exit.handlerBlocked, pending := rest }
      | some (w1, _) =>
        (startWatchingNamespace n podEventHandler networkPolicyEventHandler w1 rest).after
          (pre ++ [Step.invoked (Call.pod p req.Typ), Step.handlerReturned])
    | _ => { world := w, steps := pre, exit := Exit.panicked, pending := rest }
  | w, Signal.policyResult req :: rest =>
    let pre := [Step.received (Signal.policyResult req),
      Step.glog ("Processing PolicyEvent for Namespace: " ++ n.namespaceName)]
    match req.Obj with
    | Object.networkPolicy np =>
      match networkPolicyEventHandler w np req.Typ with
      | none =>
        { world := w, steps := pre ++ [Step.invoked (Call.policy np req.Typ)],
          exit := Exit.handlerBlocked, pending := rest }
      | some (w1, _) =>
        (startWatchingNamespace n podEventHandler networkPolicyEventHandler w1 rest).after
          (pre ++ [Step.invoked (Call.policy np req.Typ), Step.handlerReturned])
    | _ => { world := w, steps := pre, exit := Exit.panicked, pending := rest }

/-- The handler invocations among the steps of an execution, in order. -/
def calls : List (Step Pod NetworkPolicy) → List (Call Pod NetworkPolicy)
  | [] => []
  | Step.invoked c :: l => c :: calls l
  | _ :: l => calls l

/-- The arguments of the pod-handler invocations of a list of calls. -/
def podCalls : List (Call Pod NetworkPolicy) → List (Pod × EventType)
  | [] => []
  | Call.pod p t :: l => (p, t) :: podCalls l
  | _ :: l => podCalls l

/-- The arguments of the policy-handler invocations of a list of calls. -/
def policyCalls : List (Call Pod NetworkPolicy) → List (NetworkPolicy × EventType)
  | [] => []
  | Call.policy np t :: l => (np, t) :: policyCalls l
  | _ :: l => policyCalls l

/-- A watch event as the specification describes it: a payload of one of the
two resource kinds with its change kind. -/
inductive KindedEvent (Pod NetworkPolicy : Type)
  | pod (p : Pod) (t : EventType)
  | policy (np : NetworkPolicy) (t : EventType)
  deriving DecidableEq, Repr

/-- The `select` outcome of a watch event delivered on the channel of its
resource kind. -/
def KindedEvent.signal : KindedEvent Pod NetworkPolicy → Signal Pod NetworkPolicy
  | KindedEvent.pod p t => Signal.podResult { Typ := t, Obj := Object.pod p }
  | KindedEvent.policy np t => Signal.policyResult { Typ := t, Obj := Object.networkPolicy np }

/-- The handler invocation a watch event asks for. -/
def KindedEvent.call : KindedEvent Pod NetworkPolicy → Call Pod NetworkPolicy
  | KindedEvent.pod p t => Call.pod p t
  | KindedEvent.policy np t => Call.policy np t

/-- The (payload, change kind) pairs of the pod events of a trace, in order. -/
def podEvents : List (KindedEvent Pod NetworkPolicy) → List (Pod × EventType)
  | [] => []
  | KindedEvent.pod p t :: l => (p, t) :: podEvents l
  | _ :: l => podEvents l

/-- The (payload, change kind) pairs of the policy events of a trace, in order. -/
def policyEvents : List (KindedEvent Pod NetworkPolicy) → List (NetworkPolicy × EventType)
  | [] => []
  | KindedEvent.policy np t :: l => (np, t) :: policyEvents l
  | _ :: l => policyEvents l

/-- A handler whose every call returns, as a `PodHandler` or `PolicyHandler`. -/
def returning {A : Type} (h : W → A → EventType → W × Option String) :
    W → A → EventType → Option (W × Option String) :=
  fun w a t => some (h w a t)

/-- The payload of a signal is of the resource kind of the channel it arrived
on (a stop signal carries no payload). -/
def Signal.kindMatches : Signal Pod NetworkPolicy → Bool
  | Signal.namespaceStop _ => true
  | Signal.podResult { Typ := _, Obj := Object.pod _ } => true
  | Signal.policyResult { Typ := _, Obj := Object.networkPolicy _ } => true
  | _ => false

/-- The signal is a stop signal. -/
def Signal.isStop : Signal Pod NetworkPolicy → Bool
  | Signal.namespaceStop _ => true
  | _ => false

/-- The monitor of handler invocations: it reads the steps of an execution
with the call in flight as its state, and rejects (`none`) a signal received or
a handler invoked while a call is in flight, and a return without a call. -/
def oneInFlight : Option (Call Pod NetworkPolicy) → List (Step Pod NetworkPolicy) →
    Option (Option (Call Pod NetworkPolicy))
  | cur, [] => some cur
  | cur, Step.glog _ :: l => oneInFlight cur l
  | none, Step.received _ :: l => oneInFlight none l
  | none, Step.invoked c :: l => oneInFlight (some c) l
  | some _, Step.handlerReturned :: l => oneInFlight none l
  | some _, Step.received _ :: _ => none
  | some _, Step.invoked _ :: _ => none
  | none, Step.handlerReturned :: _ => none

/-- The handler invocation that the loop makes for a signal, decided by the
channel it arrived on; `none` for a stop signal and for a payload that the type
assertion of that channel rejects. -/
def callOf : Signal Pod NetworkPolicy → Option (Call Pod NetworkPolicy)
  | Signal.namespaceStop _ => none
  | Signal.podResult req =>
    match req.Obj with
    | Object.pod p => some (Call.pod p req.Typ)
    | _ => none
  | Signal.policyResult req =>
    match req.Obj with
    | Object.networkPolicy np => some (Call.policy np req.Typ)
    | _ => none

/-- The signals of a trace up to its first stop signal, the stop excluded. -/
def beforeStop (t : List (Signal Pod NetworkPolicy)) : List (Signal Pod NetworkPolicy) :=
  t.takeWhile (fun s => !s.isStop)

/-- The call is an invocation of the pod handler. -/
def Call.isPod : Call Pod NetworkPolicy → Bool
  | Call.pod _ _ => true
  | Call.policy _ _ => false

/-! ### Sample handlers and a sample trace -/

/-- A pod handler on a counter that returns no error. -/
def countingPodHandler : Nat → String → EventType → Nat × Option String :=
  fun w _ _ => (w + 1, none)

/-- A policy handler on a counter that returns a failure at every call. -/
def failingPolicyHandler : Nat → String → EventType → Nat × Option String :=
  fun w _ _ => (w + 10, some "policy rejected")

/-- A pod handler on a counter that returns a failure at every call. -/
def failingPodHandler : Nat → String → EventType → Nat × Option String :=
  fun w _ _ => (w + 1, some "pod rejected")

/-- A policy handler on a counter that returns no error. -/
def countingPolicyHandler : Nat → String → EventType → Nat × Option String :=
  fun w _ _ => (w + 10, none)

/-- A pod handler whose call never returns. -/
def blockingPodHandler : PodHandler Nat String :=
  fun _ _ _ => none

/-- The trace of the scenario: (pod P1, added), (policy Net1, added), stop,
followed by an event that arrives after the stop. -/
def scenarioTrace : List (Signal String String) :=
  [Signal.podResult { Typ := EventType.Added, Obj := Object.pod "P1" },
    Signal.policyResult { Typ := EventType.Added, Obj := Object.networkPolicy "Net1" },
    Signal.namespaceStop true,
    Signal.podResult { Typ := EventType.Deleted, Obj := Object.pod "P1" }]

end Resolver

end Trireme


namespace Trireme

namespace Config

/-! ## Properties of the configuration validation -/

theorem checkNetworks_eq_none_iff (parseCIDR : String → Option String) (l : List String) :
    checkNetworks parseCIDR l = none ↔ ∀ f ∈ l, validCIDR parseCIDR f := by
  induction l with
  | nil => simp [checkNetworks]
  | cons a l ih =>
    cases h : parseCIDR a with
    | none => simp [checkNetworks, h, ih, validCIDR]
    | some e => simp [checkNetworks, h, validCIDR]

theorem parseTriremeNets_ok_of_valid (parseCIDR : String → Option String) (nets : String)
    (h : ∀ f ∈ Fields nets, validCIDR parseCIDR f) :
    parseTriremeNets parseCIDR nets = Except.ok (Fields nets) := by
  have hc := (checkNetworks_eq_none_iff parseCIDR (Fields nets)).2 h
  simp [parseTriremeNets, hc]

theorem parseTriremeNets_error_of_invalid (parseCIDR : String → Option String) (nets : String)
    (h : ¬ ∀ f ∈ Fields nets, validCIDR parseCIDR f) :
    ∃ err, parseTriremeNets parseCIDR nets = Except.error err := by
  cases hc : checkNetworks parseCIDR (Fields nets) with
  | none => exact absurd ((checkNetworks_eq_none_iff parseCIDR (Fields nets)).1 hc) h
  | some e => exact ⟨e, by simp [parseTriremeNets, hc]⟩

theorem parseTriremeNets_ok_iff (parseCIDR : String → Option String) (nets : String)
    (r : List String) :
    parseTriremeNets parseCIDR nets = Except.ok r ↔
      r = Fields nets ∧ ∀ f ∈ Fields nets, validCIDR parseCIDR f := by
  by_cases h : ∀ f ∈ Fields nets, validCIDR parseCIDR f
  · rw [parseTriremeNets_ok_of_valid parseCIDR nets h]
    constructor
    · intro e
      injection e with e
      exact ⟨e.symm, h⟩
    · rintro ⟨e, -⟩
      rw [e]
  · obtain ⟨err, he⟩ := parseTriremeNets_error_of_invalid parseCIDR nets h
    rw [he]
    constructor
    · intro e; cases e
    · rintro ⟨-, h2⟩; exact absurd h2 h

theorem fieldsFrom_nil_of_all_space (l : List Char) (h : ∀ c ∈ l, isSpace c = true) :
    fieldsFrom [] l = [] := by
  induction l with
  | nil => simp [fieldsFrom]
  | cons a l ih =>
    have ha : isSpace a = true := h a (List.mem_cons_self a l)
    have hl : ∀ c ∈ l, isSpace c = true := fun c hc => h c (List.mem_cons_of_mem a hc)
    simp [fieldsFrom, ha, ih hl]

/-- Every field that `strings.Fields` returns is non-empty and free of white
space. -/
theorem fieldsFrom_mem (l cur : List Char) (hcur : ∀ c ∈ cur, isSpace c = false)
    (f : String) (hf : f ∈ fieldsFrom cur l) :
    f.data ≠ [] ∧ ∀ c ∈ f.data, isSpace c = false := by
  induction l generalizing cur with
  | nil =>
    by_cases hc : cur = []
    · simp [fieldsFrom, hc] at hf
    · simp only [fieldsFrom, hc, if_false, List.mem_singleton] at hf
      subst hf
      refine ⟨by simpa using hc, ?_⟩
      intro c hmem
      exact hcur c (by simpa using hmem)
  | cons a l ih =>
    by_cases ha : isSpace a = true
    · by_cases hc : cur = []
      · simp only [fieldsFrom, ha, hc, if_true] at hf
        exact ih [] (by simp) hf
      · simp only [fieldsFrom, ha, hc, if_true, if_false, List.mem_cons] at hf
        rcases hf with hf | hf
        · subst hf
          refine ⟨by simpa using hc, ?_⟩
          intro c hmem
          exact hcur c (by simpa using hmem)
        · exact ih [] (by simp) hf
    · simp only [fieldsFrom, ha] at hf
      refine ih (a :: cur) ?_ hf
      intro c hmem
      rcases List.mem_cons.1 hmem with h | h
      · subst h; simpa using ha
      · exact hcur c h

/-- The fields of a string, concatenated, are its characters without the white
space: `strings.Fields` drops white space only and keeps the order. -/
theorem fieldsFrom_join (l cur : List Char) :
    ((fieldsFrom cur l).map String.data).flatten =
      cur.reverse ++ l.filter (fun c => !isSpace c) := by
  induction l generalizing cur with
  | nil => by_cases hc : cur = [] <;> simp [fieldsFrom, hc]
  | cons a l ih =>
    by_cases ha : isSpace a = true
    · by_cases hc : cur = [] <;> simp [fieldsFrom, ha, hc, ih]
    · simp [fieldsFrom, ha, ih]

/-- The fields of a string are non-empty and free of white space. -/
theorem Fields_mem (s f : String) (hf : f ∈ Fields s) :
    f.data ≠ [] ∧ ∀ c ∈ f.data, isSpace c = false :=
  fieldsFrom_mem s.data [] (by simp) f hf

/-- The fields of a string, concatenated, are its characters that are not
white space, in their order. -/
theorem Fields_flatten (s : String) :
    ((Fields s).map String.data).flatten = s.data.filter (fun c => !isSpace c) := by
  simpa using fieldsFrom_join s.data []

theorem validateConfig_of_checks (getenv : String → String)
    (parseCIDR : String → Option String) (config : Configuration)
    (h1 : config.KubeNodeName ≠ "" ∨ config.Enforce = true)
    (h2 : config.AuthType = "PSK" ∨ config.AuthType = "PKI")
    (h3 : config.AuthType = "PSK" → config.TriremePSK ≠ "") :
    validateConfig getenv parseCIDR config =
      match parseTriremeNets parseCIDR config.TriremeNetworks with
      | Except.error err =>
        (settleKubeconfig getenv config, some ("TargetNetwork is invalid: " ++ err))
      | Except.ok parsed =>
        ({ settleKubeconfig getenv config with ParsedTriremeNetworks := parsed }, none) := by
  have e1 : (settleKubeconfig getenv config).Enforce = config.Enforce := by
    unfold settleKubeconfig; split_ifs <;> rfl
  have e2 : (settleKubeconfig getenv config).KubeNodeName = config.KubeNodeName := by
    unfold settleKubeconfig; split_ifs <;> rfl
  have e3 : (settleKubeconfig getenv config).AuthType = config.AuthType := by
    unfold settleKubeconfig; split_ifs <;> rfl
  have e4 : (settleKubeconfig getenv config).TriremePSK = config.TriremePSK := by
    unfold settleKubeconfig; split_ifs <;> rfl
  have e5 : (settleKubeconfig getenv config).TriremeNetworks = config.TriremeNetworks := by
    unfold settleKubeconfig; split_ifs <;> rfl
  have c1 : (!config.Enforce && decide (config.KubeNodeName = "")) = false := by
    rcases h1 with h | h
    · simp [h]
    · simp [h]
  have c2 : (decide (config.AuthType ≠ "PSK") && decide (config.AuthType ≠ "PKI")) = false := by
    rcases h2 with h | h <;> simp [h]
  have c3 : (decide (config.AuthType = "PSK") && decide (config.TriremePSK = "")) = false := by
    by_cases h : config.AuthType = "PSK"
    · simp [h3 h]
    · simp [h]
  simp only [validateConfig, e1, e2, e3, e4, e5, c1, c2, c3]
  rfl

theorem validateConfig_error_of_violation (getenv : String → String)
    (parseCIDR : String → Option String) (config : Configuration)
    (h : ¬ ((config.KubeNodeName ≠ "" ∨ config.Enforce = true) ∧
      (config.AuthType = "PSK" ∨ config.AuthType = "PKI") ∧
      (config.AuthType = "PSK" → config.TriremePSK ≠ "") ∧
      (∀ f ∈ Fields config.TriremeNetworks, validCIDR parseCIDR f))) :
    ∃ msg, (validateConfig getenv parseCIDR config).2 = some msg ∧
      (validateConfig getenv parseCIDR config).1 = settleKubeconfig getenv config := by
  have e1 : (settleKubeconfig getenv config).Enforce = config.Enforce := by
    unfold settleKubeconfig; split_ifs <;> rfl
  have e2 : (settleKubeconfig getenv config).KubeNodeName = config.KubeNodeName := by
    unfold settleKubeconfig; split_ifs <;> rfl
  have e3 : (settleKubeconfig getenv config).AuthType = config.AuthType := by
    unfold settleKubeconfig; split_ifs <;> rfl
  have e4 : (settleKubeconfig getenv config).TriremePSK = config.TriremePSK := by
    unfold settleKubeconfig; split_ifs <;> rfl
  by_cases h1 : config.KubeNodeName ≠ "" ∨ config.Enforce = true
  · by_cases h2 : config.AuthType = "PSK" ∨ config.AuthType = "PKI"
    · by_cases h3 : config.AuthType = "PSK" → config.TriremePSK ≠ ""
      · have h4 : ¬ ∀ f ∈ Fields config.TriremeNetworks, validCIDR parseCIDR f :=
          fun h4 => h ⟨h1, h2, h3, h4⟩
        obtain ⟨err, he⟩ := parseTriremeNets_error_of_invalid parseCIDR _ h4
        rw [validateConfig_of_checks getenv parseCIDR config h1 h2 h3, he]
        exact ⟨_, rfl, rfl⟩
      · have hp : config.AuthType = "PSK" := by
          by_contra hn; exact h3 (fun hh => absurd hh hn)
        have hk : config.TriremePSK = "" := by
          by_contra hn; exact h3 (fun _ => hn)
        have c1 : (!config.Enforce && decide (config.KubeNodeName = "")) = false := by
          rcases h1 with h | h <;> simp [h]
        refine ⟨"PSK should be provided", ?_, ?_⟩ <;>
          simp [validateConfig, e1, e2, e3, e4, c1, hp, hk]
    · have hp : config.AuthType ≠ "PSK" := fun hh => h2 (Or.inl hh)
      have hk : config.AuthType ≠ "PKI" := fun hh => h2 (Or.inr hh)
      have c1 : (!config.Enforce && decide (config.KubeNodeName = "")) = false := by
        rcases h1 with h | h <;> simp [h]
      refine ⟨"AuthType should be PSK or PKI", ?_, ?_⟩ <;>
        simp [validateConfig, e1, e2, e3, c1, hp, hk]
  · have hn : config.KubeNodeName = "" := by
      by_contra hh; exact h1 (Or.inl hh)
    have he : config.Enforce = false := by
      cases hh : config.Enforce
      · rfl
      · exact absurd (Or.inr hh) h1
    refine ⟨"Couldn't load NodeName. Ensure Kubernetes Nodename is given as a parameter",
      ?_, ?_⟩ <;> simp [validateConfig, e1, e2, hn, he]

/-! ### The claims about `config/config.go` -/

/-- C6: `validateConfig` returns no error if and only if (1) `KubeNodeName` is
non-empty or `Enforce` is true, (2) `AuthType` is exactly "PSK" or exactly
"PKI", (3) when `AuthType` is "PSK" the secret `TriremePSK` is non-empty, and
(4) every white-space-separated field of `TriremeNetworks` is a valid CIDR; for
every configuration that violates one of the four it returns an error. -/
theorem validateConfig_no_error_iff (getenv : String → String)
    (parseCIDR : String → Option String) (config : Configuration) :
    ((validateConfig getenv parseCIDR config).2 = none ↔
      ((config.KubeNodeName ≠ "" ∨ config.Enforce = true) ∧
        (config.AuthType = "PSK" ∨ config.AuthType = "PKI") ∧
        (config.AuthType = "PSK" → config.TriremePSK ≠ "") ∧
        (∀ f ∈ Fields config.TriremeNetworks, validCIDR parseCIDR f))) ∧
    ((∃ msg, (validateConfig getenv parseCIDR config).2 = some msg) ↔
      ¬ ((config.KubeNodeName ≠ "" ∨ config.Enforce = true) ∧
        (config.AuthType = "PSK" ∨ config.AuthType = "PKI") ∧
        (config.AuthType = "PSK" → config.TriremePSK ≠ "") ∧
        (∀ f ∈ Fields config.TriremeNetworks, validCIDR parseCIDR f))) := by
  have key : ((config.KubeNodeName ≠ "" ∨ config.Enforce = true) ∧
        (config.AuthType = "PSK" ∨ config.AuthType = "PKI") ∧
        (config.AuthType = "PSK" → config.TriremePSK ≠ "") ∧
        (∀ f ∈ Fields config.TriremeNetworks, validCIDR parseCIDR f)) →
      (validateConfig getenv parseCIDR config).2 = none := by
    rintro ⟨h1, h2, h3, h4⟩
    rw [validateConfig_of_checks getenv parseCIDR config h1 h2 h3,
      parseTriremeNets_ok_of_valid parseCIDR _ h4]
  constructor
  · constructor
    · intro hnone
      by_contra hv
      obtain ⟨msg, hmsg, -⟩ := validateConfig_error_of_violation getenv parseCIDR config hv
      rw [hmsg] at hnone
      cases hnone
    · exact key
  · constructor
    · rintro ⟨msg, hmsg⟩ hv
      rw [key hv] at hmsg
      cases hmsg
    · intro hv
      obtain ⟨msg, hmsg, -⟩ := validateConfig_error_of_violation getenv parseCIDR config hv
      exact ⟨msg, hmsg⟩

/-- C7: `parseTriremeNets nets` fails if and only if some white-space-separated
field of `nets` is not a valid CIDR; when it succeeds it returns exactly the
fields of `nets`, in order (each of them a valid CIDR; an empty or all-white-space
input gives the empty list without error); and `validateConfig`, when
its call of `parseTriremeNets` succeeds, stores that list in
`ParsedTriremeNetworks`. -/
theorem parseTriremeNets_spec (parseCIDR : String → Option String) (nets : String) :
    ((∃ err, parseTriremeNets parseCIDR nets = Except.error err) ↔
      ∃ f ∈ Fields nets, ¬ validCIDR parseCIDR f) ∧
    ((¬ ∃ err, parseTriremeNets parseCIDR nets = Except.error err) →
      parseTriremeNets parseCIDR nets = Except.ok (Fields nets) ∧
        ∀ f ∈ Fields nets, validCIDR parseCIDR f) ∧
    (∀ r, parseTriremeNets parseCIDR nets = Except.ok r →
      r = Fields nets ∧ ∀ f ∈ r, validCIDR parseCIDR f) ∧
    ((∀ c ∈ nets.data, isSpace c = true) →
      parseTriremeNets parseCIDR nets = Except.ok []) ∧
    (∀ (getenv : String → String) (config : Configuration),
      config.TriremeNetworks = nets →
      (config.KubeNodeName ≠ "" ∨ config.Enforce = true) →
      (config.AuthType = "PSK" ∨ config.AuthType = "PKI") →
      (config.AuthType = "PSK" → config.TriremePSK ≠ "") →
      ∀ r, parseTriremeNets parseCIDR nets = Except.ok r →
        (validateConfig getenv parseCIDR config).2 = none ∧
          (validateConfig getenv parseCIDR config).1.ParsedTriremeNetworks = r) ∧
    (∀ (getenv : String → String) (config : Configuration),
      config.TriremeNetworks = nets →
      (validateConfig getenv parseCIDR config).2 = none →
      parseTriremeNets parseCIDR nets =
        Except.ok (validateConfig getenv parseCIDR config).1.ParsedTriremeNetworks) := by
  refine ⟨?_, ?_, ?_, ?_, ?_, ?_⟩
  · constructor
    · rintro ⟨err, he⟩
      by_contra hne
      have hall : ∀ f ∈ Fields nets, validCIDR parseCIDR f := by
        intro f hf
        by_contra hv
        exact hne ⟨f, hf, hv⟩
      rw [parseTriremeNets_ok_of_valid parseCIDR nets hall] at he
      cases he
    · rintro ⟨f, hf, hv⟩
      exact parseTriremeNets_error_of_invalid parseCIDR nets (fun hall => hv (hall f hf))
  · intro hne
    have hall : ∀ f ∈ Fields nets, validCIDR parseCIDR f := by
      by_contra hv
      exact hne (parseTriremeNets_error_of_invalid parseCIDR nets hv)
    exact ⟨parseTriremeNets_ok_of_valid parseCIDR nets hall, hall⟩
  · intro r hr
    obtain ⟨e, hall⟩ := (parseTriremeNets_ok_iff parseCIDR nets r).1 hr
    exact ⟨e, by rw [e]; exact hall⟩
  · intro hsp
    have hall : ∀ f ∈ Fields nets, validCIDR parseCIDR f := by
      intro f hf
      simp [Fields, fieldsFrom_nil_of_all_space nets.data hsp] at hf
    rw [parseTriremeNets_ok_of_valid parseCIDR nets hall]
    simp [Fields, fieldsFrom_nil_of_all_space nets.data hsp]
  · intro getenv config hn h1 h2 h3 r hr
    subst hn
    rw [validateConfig_of_checks getenv parseCIDR config h1 h2 h3, hr]
    exact ⟨rfl, rfl⟩
  · intro getenv config hn hnone
    subst hn
    by_cases hv : ((config.KubeNodeName ≠ "" ∨ config.Enforce = true) ∧
        (config.AuthType = "PSK" ∨ config.AuthType = "PKI") ∧
        (config.AuthType = "PSK" → config.TriremePSK ≠ "") ∧
        (∀ f ∈ Fields config.TriremeNetworks, validCIDR parseCIDR f))
    · obtain ⟨h1, h2, h3, h4⟩ := hv
      rw [validateConfig_of_checks getenv parseCIDR config h1 h2 h3,
        parseTriremeNets_ok_of_valid parseCIDR _ h4]
    · obtain ⟨msg, hmsg, -⟩ := validateConfig_error_of_violation getenv parseCIDR config hv
      rw [hmsg] at hnone
      cases hnone

/-- C10: `validateConfig` settles `KubeconfigPath` from the environment whatever
its result: the empty string when `KUBERNETES_PORT` is non-empty; `HOME`
followed by "/.kube/config" when `KUBERNETES_PORT` is empty and the path was
empty; unchanged when `KUBERNETES_PORT` is empty and the path was non-empty.
Every other field except `ParsedTriremeNetworks` is left unchanged, and
`ParsedTriremeNetworks` is unchanged when an error is returned. -/
theorem validateConfig_frame (getenv : String → String)
    (parseCIDR : String → Option String) (config : Configuration) :
    (getenv "KUBERNETES_PORT" ≠ "" →
      (validateConfig getenv parseCIDR config).1.KubeconfigPath = "") ∧
    (getenv "KUBERNETES_PORT" = "" → config.KubeconfigPath = "" →
      (validateConfig getenv parseCIDR config).1.KubeconfigPath =
        getenv "HOME" ++ "/.kube/config") ∧
    (getenv "KUBERNETES_PORT" = "" → config.KubeconfigPath ≠ "" →
      (validateConfig getenv parseCIDR config).1.KubeconfigPath = config.KubeconfigPath) ∧
    (validateConfig getenv parseCIDR config).1.AuthType = config.AuthType ∧
    (validateConfig getenv parseCIDR config).1.KubeNodeName = config.KubeNodeName ∧
    (validateConfig getenv parseCIDR config).1.PKIDirectory = config.PKIDirectory ∧
    (validateConfig getenv parseCIDR config).1.TriremePSK = config.TriremePSK ∧
    (validateConfig getenv parseCIDR config).1.RemoteEnforcer = config.RemoteEnforcer ∧
    (validateConfig getenv parseCIDR config).1.TriremeNetworks = config.TriremeNetworks ∧
    (validateConfig getenv parseCIDR config).1.LogLevel = config.LogLevel ∧
    (validateConfig getenv parseCIDR config).1.Enforce = config.Enforce ∧
    ((validateConfig getenv parseCIDR config).2 ≠ none →
      (validateConfig getenv parseCIDR config).1.ParsedTriremeNetworks =
        config.ParsedTriremeNetworks) := by
  have hs :
      (validateConfig getenv parseCIDR config).1 = settleKubeconfig getenv config ∨
      (validateConfig getenv parseCIDR config).2 = none ∧
        ∃ parsed : List String, (validateConfig getenv parseCIDR config).1 =
          { settleKubeconfig getenv config with ParsedTriremeNetworks := parsed } := by
    by_cases hv : ((config.KubeNodeName ≠ "" ∨ config.Enforce = true) ∧
        (config.AuthType = "PSK" ∨ config.AuthType = "PKI") ∧
        (config.AuthType = "PSK" → config.TriremePSK ≠ "") ∧
        (∀ f ∈ Fields config.TriremeNetworks, validCIDR parseCIDR f))
    · obtain ⟨h1, h2, h3, h4⟩ := hv
      right
      rw [validateConfig_of_checks getenv parseCIDR config h1 h2 h3,
        parseTriremeNets_ok_of_valid parseCIDR _ h4]
      exact ⟨rfl, _, rfl⟩
    · obtain ⟨msg, -, hcfg⟩ := validateConfig_error_of_violation getenv parseCIDR config hv
      exact Or.inl hcfg
  have hk1 : getenv "KUBERNETES_PORT" ≠ "" →
      (settleKubeconfig getenv config).KubeconfigPath = "" := by
    intro h; simp [settleKubeconfig, h]
  have hk2 : getenv "KUBERNETES_PORT" = "" → config.KubeconfigPath = "" →
      (settleKubeconfig getenv config).KubeconfigPath = getenv "HOME" ++ "/.kube/config" := by
    intro h h2; simp [settleKubeconfig, h, h2, DefaultKubeConfigLocation]
  have hk3 : getenv "KUBERNETES_PORT" = "" → config.KubeconfigPath ≠ "" →
      (settleKubeconfig getenv config).KubeconfigPath = config.KubeconfigPath := by
    intro h h2; simp [settleKubeconfig, h, h2]
  have f1 : (settleKubeconfig getenv config).AuthType = config.AuthType := by
    unfold settleKubeconfig; split_ifs <;> rfl
  have f2 : (settleKubeconfig getenv config).KubeNodeName = config.KubeNodeName := by
    unfold settleKubeconfig; split_ifs <;> rfl
  have f3 : (settleKubeconfig getenv config).PKIDirectory = config.PKIDirectory := by
    unfold settleKubeconfig; split_ifs <;> rfl
  have f4 : (settleKubeconfig getenv config).TriremePSK = config.TriremePSK := by
    unfold settleKubeconfig; split_ifs <;> rfl
  have f5 : (settleKubeconfig getenv config).RemoteEnforcer = config.RemoteEnforcer := by
    unfold settleKubeconfig; split_ifs <;> rfl
  have f6 : (settleKubeconfig getenv config).TriremeNetworks = config.TriremeNetworks := by
    unfold settleKubeconfig; split_ifs <;> rfl
  have f7 : (settleKubeconfig getenv config).LogLevel = config.LogLevel := by
    unfold settleKubeconfig; split_ifs <;> rfl
  have f8 : (settleKubeconfig getenv config).Enforce = config.Enforce := by
    unfold settleKubeconfig; split_ifs <;> rfl
  have f9 : (settleKubeconfig getenv config).ParsedTriremeNetworks =
      config.ParsedTriremeNetworks := by
    unfold settleKubeconfig; split_ifs <;> rfl
  rcases hs with h | ⟨hnone, parsed, h⟩
  · rw [h]
    exact ⟨hk1, hk2, hk3, f1, f2, f3, f4, f5, f6, f7, f8, fun _ => f9⟩
  · rw [h]
    exact ⟨hk1, hk2, hk3, f1, f2, f3, f4, f5, f6, f7, f8, fun hne => absurd hnone hne⟩

/-- The sample configuration passes `validateConfig` (C6 at a concrete input). -/
theorem validateConfig_no_error_iff_witness :
    (validateConfig sampleEnv sampleParseCIDR sampleConfig).2 = none ∧
      ∃ msg, (validateConfig sampleEnv sampleParseCIDR
        { sampleConfig with AuthType := "psk" }).2 = some msg :=
  ⟨(validateConfig_no_error_iff sampleEnv sampleParseCIDR sampleConfig).1.2
      ⟨by decide, by decide, by decide, by decide⟩,
    (validateConfig_no_error_iff sampleEnv sampleParseCIDR
      { sampleConfig with AuthType := "psk" }).2.2 (fun h => absurd h.2.1 (by decide))⟩

end Config

end Trireme

namespace Trireme

namespace Resolver

variable {W Pod NetworkPolicy : Type}

/-! ## Properties of the namespace watcher -/

@[simp] theorem Run.after_steps (pre : List (Step Pod NetworkPolicy))
    (r : Run W Pod NetworkPolicy) : (r.after pre).steps = pre ++ r.steps := rfl

@[simp] theorem Run.after_exit (pre : List (Step Pod NetworkPolicy))
    (r : Run W Pod NetworkPolicy) : (r.after pre).exit = r.exit := rfl

@[simp] theorem Run.after_world (pre : List (Step Pod NetworkPolicy))
    (r : Run W Pod NetworkPolicy) : (r.after pre).world = r.world := rfl

@[simp] theorem Run.after_pending (pre : List (Step Pod NetworkPolicy))
    (r : Run W Pod NetworkPolicy) : (r.after pre).pending = r.pending := rfl

theorem calls_append (a b : List (Step Pod NetworkPolicy)) :
    calls (a ++ b) = calls a ++ calls b := by
  induction a with
  | nil => rfl
  | cons x a ih => cases x <;> simp [calls, ih]

theorem podCalls_map_call (ts : List (KindedEvent Pod NetworkPolicy)) :
    podCalls (ts.map KindedEvent.call) = podEvents ts := by
  induction ts with
  | nil => rfl
  | cons x ts ih => cases x <;> simp [podCalls, podEvents, KindedEvent.call, ih]

theorem policyCalls_map_call (ts : List (KindedEvent Pod NetworkPolicy)) :
    policyCalls (ts.map KindedEvent.call) = policyEvents ts := by
  induction ts with
  | nil => rfl
  | cons x ts ih => cases x <;> simp [policyCalls, policyEvents, KindedEvent.call, ih]

/-- The run over the stop signal: two steps, no handler, the rest of the trace
left unconsumed. -/
theorem start_stop (n : NamespaceWatcher) (hp : PodHandler W Pod)
    (hq : PolicyHandler W NetworkPolicy) (w : W) (v : Bool)
    (post : List (Signal Pod NetworkPolicy)) :
    startWatchingNamespace n hp hq w (Signal.namespaceStop v :: post) =
      { world := w
        steps := [Step.received (Signal.namespaceStop v),
          Step.glog ("Received Stop signal for Namespace: " ++ n.namespaceName)]
        exit := Exit.returned
        pending := post } := by
  simp [startWatchingNamespace]

/-- The run over a pod event whose handler call returns. -/
theorem start_pod (n : NamespaceWatcher) (hp : PodHandler W Pod)
    (hq : PolicyHandler W NetworkPolicy) (w w1 : W) (o : Option String) (p : Pod)
    (t : EventType) (rest : List (Signal Pod NetworkPolicy)) (h : hp w p t = some (w1, o)) :
    startWatchingNamespace n hp hq w
        (Signal.podResult { Typ := t, Obj := Object.pod p } :: rest) =
      (startWatchingNamespace n hp hq w1 rest).after
        [Step.received (Signal.podResult { Typ := t, Obj := Object.pod p }),
          Step.glog ("Processing PodEvent for Namespace: " ++ n.namespaceName),
          Step.invoked (Call.pod p t), Step.handlerReturned] := by
  simp [startWatchingNamespace, h]

/-- The run over a policy event whose handler call returns. -/
theorem start_policy (n : NamespaceWatcher) (hp : PodHandler W Pod)
    (hq : PolicyHandler W NetworkPolicy) (w w1 : W) (o : Option String) (np : NetworkPolicy)
    (t : EventType) (rest : List (Signal Pod NetworkPolicy)) (h : hq w np t = some (w1, o)) :
    startWatchingNamespace n hp hq w
        (Signal.policyResult { Typ := t, Obj := Object.networkPolicy np } :: rest) =
      (startWatchingNamespace n hp hq w1 rest).after
        [Step.received (Signal.policyResult { Typ := t, Obj := Object.networkPolicy np }),
          Step.glog ("Processing PolicyEvent for Namespace: " ++ n.namespaceName),
          Step.invoked (Call.policy np t), Step.handlerReturned] := by
  simp [startWatchingNamespace, h]

/-- The run over a trace of kinded events followed by a stop, with handlers
that return: every event is dispatched, in order, and the loop returns. -/
theorem start_kinded (n : NamespaceWatcher)
    (hp : W → Pod → EventType → W × Option String)
    (hq : W → NetworkPolicy → EventType → W × Option String)
    (ts : List (KindedEvent Pod NetworkPolicy)) (w : W) (v : Bool)
    (post : List (Signal Pod NetworkPolicy)) :
    calls (startWatchingNamespace n (returning hp) (returning hq) w
        (ts.map KindedEvent.signal ++ Signal.namespaceStop v :: post)).steps =
        ts.map KindedEvent.call ∧
      (startWatchingNamespace n (returning hp) (returning hq) w
        (ts.map KindedEvent.signal ++ Signal.namespaceStop v :: post)).exit = Exit.returned ∧
      (startWatchingNamespace n (returning hp) (returning hq) w
        (ts.map KindedEvent.signal ++ Signal.namespaceStop v :: post)).pending = post := by
  induction ts generalizing w with
  | nil => simp [start_stop, calls]
  | cons x ts ih =>
    cases x with
    | pod p t =>
      have h : returning hp w p t = some ((hp w p t).1, (hp w p t).2) := rfl
      simp only [List.map_cons, List.cons_append, KindedEvent.signal, KindedEvent.call]
      rw [start_pod n (returning hp) (returning hq) w _ _ p t _ h]
      obtain ⟨h1, h2, h3⟩ := ih (hp w p t).1
      simp [calls_append, calls, h1, h2, h3]
    | policy np t =>
      have h : returning hq w np t = some ((hq w np t).1, (hq w np t).2) := rfl
      simp only [List.map_cons, List.cons_append, KindedEvent.signal, KindedEvent.call]
      rw [start_policy n (returning hp) (returning hq) w _ _ np t _ h]
      obtain ⟨h1, h2, h3⟩ := ih (hq w np t).1
      simp [calls_append, calls, h1, h2, h3]

/-- What follows the first stop signal of a trace has no effect on the run,
and stays unconsumed. -/
theorem start_cut (n : NamespaceWatcher) (hp : PodHandler W Pod)
    (hq : PolicyHandler W NetworkPolicy) (pre post : List (Signal Pod NetworkPolicy))
    (v : Bool) (w : W) :
    (startWatchingNamespace n hp hq w (pre ++ Signal.namespaceStop v :: post)).steps =
        (startWatchingNamespace n hp hq w (pre ++ [Signal.namespaceStop v])).steps ∧
      (startWatchingNamespace n hp hq w (pre ++ Signal.namespaceStop v :: post)).exit =
        (startWatchingNamespace n hp hq w (pre ++ [Signal.namespaceStop v])).exit ∧
      (startWatchingNamespace n hp hq w (pre ++ Signal.namespaceStop v :: post)).world =
        (startWatchingNamespace n hp hq w (pre ++ [Signal.namespaceStop v])).world ∧
      post <:+ (startWatchingNamespace n hp hq w
        (pre ++ Signal.namespaceStop v :: post)).pending := by
  induction pre generalizing w with
  | nil => simp [startWatchingNamespace]
  | cons s pre ih =>
    have hsuf : post <:+ pre ++ Signal.namespaceStop v :: post :=
      ⟨pre ++ [Signal.namespaceStop v], by simp⟩
    cases s with
    | namespaceStop u =>
      simpa [start_stop] using hsuf
    | podResult req =>
      obtain ⟨ty, ob⟩ := req
      cases ob with
      | pod p =>
        cases h : hp w p ty with
        | none =>
          simpa [startWatchingNamespace, h] using hsuf
        | some r =>
          obtain ⟨w1, o⟩ := r
          obtain ⟨h1, h2, h3, h4⟩ := ih w1
          simp only [List.cons_append]
          rw [start_pod n hp hq w w1 o p ty _ h, start_pod n hp hq w w1 o p ty _ h]
          simp [h1, h2, h3, h4]
      | networkPolicy np =>
        simpa [startWatchingNamespace] using hsuf
      | other nm =>
        simpa [startWatchingNamespace] using hsuf
    | policyResult req =>
      obtain ⟨ty, ob⟩ := req
      cases ob with
      | networkPolicy np =>
        cases h : hq w np ty with
        | none =>
          simpa [startWatchingNamespace, h] using hsuf
        | some r =>
          obtain ⟨w1, o⟩ := r
          obtain ⟨h1, h2, h3, h4⟩ := ih w1
          simp only [List.cons_append]
          rw [start_policy n hp hq w w1 o np ty _ h, start_policy n hp hq w w1 o np ty _ h]
          simp [h1, h2, h3, h4]
      | pod p =>
        simpa [startWatchingNamespace] using hsuf
      | other nm =>
        simpa [startWatchingNamespace] using hsuf

/-- The handler invocations of a run are, in order, the invocations that the
channels of the signals before the first stop ask for: the i-th invocation is
the one of the i-th such signal. -/
theorem calls_follow_channels (n : NamespaceWatcher) (hp : PodHandler W Pod)
    (hq : PolicyHandler W NetworkPolicy) (t : List (Signal Pod NetworkPolicy)) (w : W) :
    (calls (startWatchingNamespace n hp hq w t).steps).map some <+:
      (beforeStop t).map callOf := by
  induction t generalizing w with
  | nil => simp [startWatchingNamespace, calls]
  | cons s t ih =>
    cases s with
    | namespaceStop u => simp [startWatchingNamespace, calls]
    | podResult req =>
      obtain ⟨ty, ob⟩ := req
      cases ob with
      | pod p =>
        cases h : hp w p ty with
        | none =>
          simp [startWatchingNamespace, h, calls, beforeStop, Signal.isStop, callOf,
            List.takeWhile_cons]
        | some r =>
          obtain ⟨w1, o⟩ := r
          have := ih w1
          simp [startWatchingNamespace, h, calls, beforeStop, Signal.isStop, callOf,
            List.takeWhile_cons, calls_append]
          simpa [beforeStop] using this
      | networkPolicy np => simp [startWatchingNamespace, calls]
      | other nm => simp [startWatchingNamespace, calls]
    | policyResult req =>
      obtain ⟨ty, ob⟩ := req
      cases ob with
      | networkPolicy np =>
        cases h : hq w np ty with
        | none =>
          simp [startWatchingNamespace, h, calls, beforeStop, Signal.isStop, callOf,
            List.takeWhile_cons]
        | some r =>
          obtain ⟨w1, o⟩ := r
          have := ih w1
          simp [startWatchingNamespace, h, calls, beforeStop, Signal.isStop, callOf,
            List.takeWhile_cons, calls_append]
          simpa [beforeStop] using this
      | pod p => simp [startWatchingNamespace, calls]
      | other nm => simp [startWatchingNamespace, calls]

/-- Two pairs of handlers that differ only in the errors they return give the
same run. -/
theorem start_congr (n : NamespaceWatcher) (hp hp2 : PodHandler W Pod)
    (hq hq2 : PolicyHandler W NetworkPolicy)
    (hpe : ∀ w p t, (hp w p t).map Prod.fst = (hp2 w p t).map Prod.fst)
    (hqe : ∀ w np t, (hq w np t).map Prod.fst = (hq2 w np t).map Prod.fst)
    (t : List (Signal Pod NetworkPolicy)) (w : W) :
    startWatchingNamespace n hp hq w t = startWatchingNamespace n hp2 hq2 w t := by
  induction t generalizing w with
  | nil => simp [startWatchingNamespace]
  | cons s t ih =>
    cases s with
    | namespaceStop u => simp [startWatchingNamespace]
    | podResult req =>
      obtain ⟨ty, ob⟩ := req
      cases ob with
      | pod p =>
        have e := hpe w p ty
        cases h : hp w p ty with
        | none =>
          cases h2 : hp2 w p ty with
          | none => simp [startWatchingNamespace, h, h2]
          | some r2 => simp [h, h2] at e
        | some r =>
          cases h2 : hp2 w p ty with
          | none => simp [h, h2] at e
          | some r2 =>
            obtain ⟨w1, o⟩ := r
            obtain ⟨w2, o2⟩ := r2
            have e12 : w1 = w2 := by simpa [h, h2] using e
            subst e12
            rw [start_pod n hp hq w w1 o p ty t h, start_pod n hp2 hq2 w w1 o2 p ty t h2,
              ih w1]
      | networkPolicy np => simp [startWatchingNamespace]
      | other nm => simp [startWatchingNamespace]
    | policyResult req =>
      obtain ⟨ty, ob⟩ := req
      cases ob with
      | networkPolicy np =>
        have e := hqe w np ty
        cases h : hq w np ty with
        | none =>
          cases h2 : hq2 w np ty with
          | none => simp [startWatchingNamespace, h, h2]
          | some r2 => simp [h, h2] at e
        | some r =>
          cases h2 : hq2 w np ty with
          | none => simp [h, h2] at e
          | some r2 =>
            obtain ⟨w1, o⟩ := r
            obtain ⟨w2, o2⟩ := r2
            have e12 : w1 = w2 := by simpa [h, h2] using e
            subst e12
            rw [start_policy n hp hq w w1 o np ty t h,
              start_policy n hp2 hq2 w w1 o2 np ty t h2, ih w1]
      | pod p => simp [startWatchingNamespace]
      | other nm => simp [startWatchingNamespace]

/-- When every payload is of the kind of its channel no type assertion fails;
when moreover every handler call returns, every signal before the first stop
is dispatched, and the run ends by the `return` of the stop case or waits at
the end of the trace. -/
theorem start_kindMatches (n : NamespaceWatcher) (hp : PodHandler W Pod)
    (hq : PolicyHandler W NetworkPolicy) (t : List (Signal Pod NetworkPolicy))
    (hk : ∀ s ∈ t, s.kindMatches = true) (w : W) :
    (startWatchingNamespace n hp hq w t).exit ≠ Exit.panicked ∧
      ((startWatchingNamespace n hp hq w t).exit ≠ Exit.handlerBlocked →
        (calls (startWatchingNamespace n hp hq w t).steps).map some =
          (beforeStop t).map callOf) := by
  induction t generalizing w with
  | nil => simp [startWatchingNamespace, calls, beforeStop]
  | cons s t ih =>
    have hk2 : ∀ s ∈ t, s.kindMatches = true := fun x hx => hk x (List.mem_cons_of_mem s hx)
    have hs : s.kindMatches = true := hk s (List.mem_cons_self s t)
    cases s with
    | namespaceStop u => simp [startWatchingNamespace, calls, beforeStop, Signal.isStop]
    | podResult req =>
      obtain ⟨ty, ob⟩ := req
      cases ob with
      | pod p =>
        cases h : hp w p ty with
        | none => simp [startWatchingNamespace, h]
        | some r =>
          obtain ⟨w1, o⟩ := r
          obtain ⟨i1, i2⟩ := ih hk2 w1
          rw [start_pod n hp hq w w1 o p ty t h]
          refine ⟨by simpa using i1, fun hb => ?_⟩
          have := i2 (by simpa using hb)
          simp [calls_append, calls, beforeStop, Signal.isStop, callOf, List.takeWhile_cons]
          simpa [beforeStop] using this
      | networkPolicy np => simp [Signal.kindMatches] at hs
      | other nm => simp [Signal.kindMatches] at hs
    | policyResult req =>
      obtain ⟨ty, ob⟩ := req
      cases ob with
      | networkPolicy np =>
        cases h : hq w np ty with
        | none => simp [startWatchingNamespace, h]
        | some r =>
          obtain ⟨w1, o⟩ := r
          obtain ⟨i1, i2⟩ := ih hk2 w1
          rw [start_policy n hp hq w w1 o np ty t h]
          refine ⟨by simpa using i1, fun hb => ?_⟩
          have := i2 (by simpa using hb)
          simp [calls_append, calls, beforeStop, Signal.isStop, callOf, List.takeWhile_cons]
          simpa [beforeStop] using this
      | pod p => simp [Signal.kindMatches] at hs
      | other nm => simp [Signal.kindMatches] at hs

/-- The steps of every run pass the monitor, and a call is left in flight
exactly when the run ends in a handler call that never returns. -/
theorem start_oneInFlight (n : NamespaceWatcher) (hp : PodHandler W Pod)
    (hq : PolicyHandler W NetworkPolicy) (t : List (Signal Pod NetworkPolicy)) (w : W) :
    ∃ cur, oneInFlight none (startWatchingNamespace n hp hq w t).steps = some cur ∧
      (cur.isSome = true ↔ (startWatchingNamespace n hp hq w t).exit = Exit.handlerBlocked) := by
  induction t generalizing w with
  | nil => exact ⟨none, by simp [startWatchingNamespace, oneInFlight]⟩
  | cons s t ih =>
    cases s with
    | namespaceStop u => exact ⟨none, by simp [startWatchingNamespace, oneInFlight]⟩
    | podResult req =>
      obtain ⟨ty, ob⟩ := req
      cases ob with
      | pod p =>
        cases h : hp w p ty with
        | none => exact ⟨some (Call.pod p ty), by simp [startWatchingNamespace, h, oneInFlight]⟩
        | some r =>
          obtain ⟨w1, o⟩ := r
          obtain ⟨cur, i1, i2⟩ := ih w1
          rw [start_pod n hp hq w w1 o p ty t h]
          exact ⟨cur, by simpa [oneInFlight] using i1, by simpa using i2⟩
      | networkPolicy np => exact ⟨none, by simp [startWatchingNamespace, oneInFlight]⟩
      | other nm => exact ⟨none, by simp [startWatchingNamespace, oneInFlight]⟩
    | policyResult req =>
      obtain ⟨ty, ob⟩ := req
      cases ob with
      | networkPolicy np =>
        cases h : hq w np ty with
        | none =>
          exact ⟨some (Call.policy np ty), by simp [startWatchingNamespace, h, oneInFlight]⟩
        | some r =>
          obtain ⟨w1, o⟩ := r
          obtain ⟨cur, i1, i2⟩ := ih w1
          rw [start_policy n hp hq w w1 o np ty t h]
          exact ⟨cur, by simpa [oneInFlight] using i1, by simpa using i2⟩
      | pod p => exact ⟨none, by simp [startWatchingNamespace, oneInFlight]⟩
      | other nm => exact ⟨none, by simp [startWatchingNamespace, oneInFlight]⟩

/-- A run that waits at the end of its trace goes on with the signals that come
next, from the state it reached. -/
theorem start_append (n : NamespaceWatcher) (hp : PodHandler W Pod)
    (hq : PolicyHandler W NetworkPolicy) (t t2 : List (Signal Pod NetworkPolicy)) (w : W)
    (ha : (startWatchingNamespace n hp hq w t).exit = Exit.awaiting) :
    startWatchingNamespace n hp hq w (t ++ t2) =
      (startWatchingNamespace n hp hq (startWatchingNamespace n hp hq w t).world t2).after
        (startWatchingNamespace n hp hq w t).steps := by
  induction t generalizing w with
  | nil => simp [startWatchingNamespace, Run.after]
  | cons s t ih =>
    cases s with
    | namespaceStop u => simp [startWatchingNamespace] at ha
    | podResult req =>
      obtain ⟨ty, ob⟩ := req
      cases ob with
      | pod p =>
        cases h : hp w p ty with
        | none => simp [startWatchingNamespace, h] at ha
        | some r =>
          obtain ⟨w1, o⟩ := r
          rw [start_pod n hp hq w w1 o p ty t h] at ha ⊢
          simp only [List.cons_append]
          rw [start_pod n hp hq w w1 o p ty _ h, ih w1 (by simpa using ha)]
          simp [Run.after]
      | networkPolicy np => simp [startWatchingNamespace] at ha
      | other nm => simp [startWatchingNamespace] at ha
    | policyResult req =>
      obtain ⟨ty, ob⟩ := req
      cases ob with
      | networkPolicy np =>
        cases h : hq w np ty with
        | none => simp [startWatchingNamespace, h] at ha
        | some r =>
          obtain ⟨w1, o⟩ := r
          rw [start_policy n hp hq w w1 o np ty t h] at ha ⊢
          simp only [List.cons_append]
          rw [start_policy n hp hq w w1 o np ty _ h, ih w1 (by simpa using ha)]
          simp [Run.after]
      | pod p => simp [startWatchingNamespace] at ha
      | other nm => simp [startWatchingNamespace] at ha

theorem beforeStop_append_stop (pre post : List (Signal Pod NetworkPolicy)) (v : Bool) :
    beforeStop (pre ++ Signal.namespaceStop v :: post) = beforeStop pre := by
  induction pre with
  | nil => simp [beforeStop, Signal.isStop]
  | cons s pre ih =>
    cases s with
    | namespaceStop u => simp [beforeStop, Signal.isStop]
    | podResult req =>
      simpa [beforeStop, Signal.isStop, List.takeWhile_cons] using ih
    | policyResult req =>
      simpa [beforeStop, Signal.isStop, List.takeWhile_cons] using ih

/-- The monitor rejects a second invocation made while a call is in flight. -/
theorem oneInFlight_rejects_overlap (c c2 : Call Pod NetworkPolicy)
    (l : List (Step Pod NetworkPolicy)) :
    oneInFlight none (Step.invoked c :: Step.invoked c2 :: l) = none := by
  simp [oneInFlight]

/-- The monitor rejects a signal received while a call is in flight. -/
theorem oneInFlight_rejects_receive (c : Call Pod NetworkPolicy)
    (s : Signal Pod NetworkPolicy) (l : List (Step Pod NetworkPolicy)) :
    oneInFlight none (Step.invoked c :: Step.received s :: l) = none := by
  simp [oneInFlight]

/-! ### The claims about `resolver/namespace.go` -/

/-- C1: for every trace of pod events and policy events, in any interleaving,
followed by one namespace stop, the pod handler is invoked once per pod event
with the (payload, change kind) pairs of the pod events in trace order, the
policy handler once per policy event with the pairs of the policy events in
trace order, and the loop then returns. For namespace "ns1" and the trace
(pod P1, added), (policy Net1, added), stop the calls are podHandler(P1, added)
then policyHandler(Net1, added). -/
theorem startWatchingNamespace_dispatches_in_order (n : NamespaceWatcher)
    (hp : W → Pod → EventType → W × Option String)
    (hq : W → NetworkPolicy → EventType → W × Option String)
    (ts : List (KindedEvent Pod NetworkPolicy)) (w : W) (v : Bool) :
    (startWatchingNamespace n (returning hp) (returning hq) w
        (ts.map KindedEvent.signal ++ [Signal.namespaceStop v])).exit = Exit.returned ∧
      calls (startWatchingNamespace n (returning hp) (returning hq) w
        (ts.map KindedEvent.signal ++ [Signal.namespaceStop v])).steps =
          ts.map KindedEvent.call ∧
      podCalls (calls (startWatchingNamespace n (returning hp) (returning hq) w
        (ts.map KindedEvent.signal ++ [Signal.namespaceStop v])).steps) = podEvents ts ∧
      policyCalls (calls (startWatchingNamespace n (returning hp) (returning hq) w
        (ts.map KindedEvent.signal ++ [Signal.namespaceStop v])).steps) = policyEvents ts ∧
      (podCalls (calls (startWatchingNamespace n (returning hp) (returning hq) w
        (ts.map KindedEvent.signal ++ [Signal.namespaceStop v])).steps)).length =
          (podEvents ts).length ∧
      (policyCalls (calls (startWatchingNamespace n (returning hp) (returning hq) w
        (ts.map KindedEvent.signal ++ [Signal.namespaceStop v])).steps)).length =
          (policyEvents ts).length ∧
      (∀ (P1 : Pod) (Net1 : NetworkPolicy),
        (startWatchingNamespace { namespaceName := "ns1" } (returning hp) (returning hq) w
          [Signal.podResult { Typ := EventType.Added, Obj := Object.pod P1 },
            Signal.policyResult { Typ := EventType.Added, Obj := Object.networkPolicy Net1 },
            Signal.namespaceStop v]).exit = Exit.returned ∧
        calls (startWatchingNamespace { namespaceName := "ns1" } (returning hp) (returning hq) w
          [Signal.podResult { Typ := EventType.Added, Obj := Object.pod P1 },
            Signal.policyResult { Typ := EventType.Added, Obj := Object.networkPolicy Net1 },
            Signal.namespaceStop v]).steps =
          [Call.pod P1 EventType.Added, Call.policy Net1 EventType.Added]) := by
  obtain ⟨h1, h2, -⟩ := start_kinded n hp hq ts w v []
  refine ⟨h2, h1, ?_, ?_, ?_, ?_, ?_⟩
  · rw [h1, podCalls_map_call]
  · rw [h1, policyCalls_map_call]
  · rw [h1, podCalls_map_call]
  · rw [h1, policyCalls_map_call]
  · intro P1 Net1
    obtain ⟨k1, k2, -⟩ := start_kinded { namespaceName := "ns1" } hp hq
      [KindedEvent.pod P1 EventType.Added, KindedEvent.policy Net1 EventType.Added] w v []
    exact ⟨k2, k1⟩

/-- C2: once the namespace stop signal is selected the loop returns at once:
the stop case takes no handler step and leaves the rest of the trace
unconsumed; for every trace, what comes after the first stop changes neither
the steps nor the end of the run, stays pending, and every handler invocation
is the one of a signal that precedes the first stop. -/
theorem startWatchingNamespace_stop_immediate (n : NamespaceWatcher) (hp : PodHandler W Pod)
    (hq : PolicyHandler W NetworkPolicy) (pre post : List (Signal Pod NetworkPolicy))
    (v : Bool) (w : W) :
    startWatchingNamespace n hp hq w (Signal.namespaceStop v :: post) =
        { world := w
          steps := [Step.received (Signal.namespaceStop v),
            Step.glog ("Received Stop signal for Namespace: " ++ n.namespaceName)]
          exit := Exit.returned
          pending := post } ∧
      (startWatchingNamespace n hp hq w (pre ++ Signal.namespaceStop v :: post)).steps =
        (startWatchingNamespace n hp hq w (pre ++ [Signal.namespaceStop v])).steps ∧
      (startWatchingNamespace n hp hq w (pre ++ Signal.namespaceStop v :: post)).exit =
        (startWatchingNamespace n hp hq w (pre ++ [Signal.namespaceStop v])).exit ∧
      (startWatchingNamespace n hp hq w (pre ++ Signal.namespaceStop v :: post)).world =
        (startWatchingNamespace n hp hq w (pre ++ [Signal.namespaceStop v])).world ∧
      post <:+ (startWatchingNamespace n hp hq w
        (pre ++ Signal.namespaceStop v :: post)).pending ∧
      (calls (startWatchingNamespace n hp hq w
        (pre ++ Signal.namespaceStop v :: post)).steps).map some <+:
          (beforeStop pre).map callOf ∧
      (calls (startWatchingNamespace n hp hq w
        (pre ++ Signal.namespaceStop v :: post)).steps).length ≤ (beforeStop pre).length ∧
      (∀ (tp : W → Pod → EventType → W × Option String)
        (tq : W → NetworkPolicy → EventType → W × Option String)
        (ts : List (KindedEvent Pod NetworkPolicy)),
        calls (startWatchingNamespace n (returning tp) (returning tq) w
            (ts.map KindedEvent.signal ++ Signal.namespaceStop v :: post)).steps =
            ts.map KindedEvent.call ∧
          (startWatchingNamespace n (returning tp) (returning tq) w
            (ts.map KindedEvent.signal ++ Signal.namespaceStop v :: post)).exit =
            Exit.returned ∧
          (startWatchingNamespace n (returning tp) (returning tq) w
            (ts.map KindedEvent.signal ++ Signal.namespaceStop v :: post)).pending = post) := by
  obtain ⟨c1, c2, c3, c4⟩ := start_cut n hp hq pre post v w
  have hpre := calls_follow_channels n hp hq (pre ++ Signal.namespaceStop v :: post) w
  rw [beforeStop_append_stop] at hpre
  refine ⟨start_stop n hp hq w v post, c1, c2, c3, c4, hpre, ?_, ?_⟩
  · have := hpre.length_le
    simpa using this
  · intro tp tq ts
    exact start_kinded n tp tq ts w v post

/-- C3, amended: for every event of change kind error received on the pod
channel whose payload is a pod record, the loop invokes the pod handler with
that payload and the change kind error, and then goes on with the next signal
(it neither returns nor fails; at the end of the trace it waits); likewise
for an error event carrying a network-policy record on the policy channel and
the policy handler. -/
theorem startWatchingNamespace_error_event (n : NamespaceWatcher)
    (hp : W → Pod → EventType → W × Option String)
    (hq : W → NetworkPolicy → EventType → W × Option String)
    (w : W) (rest : List (Signal Pod NetworkPolicy)) :
    (∀ p : Pod,
      startWatchingNamespace n (returning hp) (returning hq) w
          (Signal.podResult { Typ := EventType.Error, Obj := Object.pod p } :: rest) =
        (startWatchingNamespace n (returning hp) (returning hq)
          (hp w p EventType.Error).1 rest).after
          [Step.received (Signal.podResult { Typ := EventType.Error, Obj := Object.pod p }),
            Step.glog ("Processing PodEvent for Namespace: " ++ n.namespaceName),
            Step.invoked (Call.pod p EventType.Error), Step.handlerReturned] ∧
      (startWatchingNamespace n (returning hp) (returning hq) w
          [Signal.podResult { Typ := EventType.Error, Obj := Object.pod p }]).exit =
        Exit.awaiting) ∧
    (∀ np : NetworkPolicy,
      startWatchingNamespace n (returning hp) (returning hq) w
          (Signal.policyResult { Typ := EventType.Error, Obj := Object.networkPolicy np } ::
            rest) =
        (startWatchingNamespace n (returning hp) (returning hq)
          (hq w np EventType.Error).1 rest).after
          [Step.received
              (Signal.policyResult { Typ := EventType.Error, Obj := Object.networkPolicy np }),
            Step.glog ("Processing PolicyEvent for Namespace: " ++ n.namespaceName),
            Step.invoked (Call.policy np EventType.Error), Step.handlerReturned] ∧
      (startWatchingNamespace n (returning hp) (returning hq) w
          [Signal.policyResult { Typ := EventType.Error, Obj := Object.networkPolicy np }]).exit =
        Exit.awaiting) := by
  constructor
  · intro p
    have h : returning hp w p EventType.Error =
        some ((hp w p EventType.Error).1, (hp w p EventType.Error).2) := rfl
    refine ⟨start_pod n (returning hp) (returning hq) w _ _ p EventType.Error rest h, ?_⟩
    rw [start_pod n (returning hp) (returning hq) w _ _ p EventType.Error [] h]
    simp [startWatchingNamespace]
  · intro np
    have h : returning hq w np EventType.Error =
        some ((hq w np EventType.Error).1, (hq w np EventType.Error).2) := rfl
    refine ⟨start_policy n (returning hp) (returning hq) w _ _ np EventType.Error rest h, ?_⟩
    rw [start_policy n (returning hp) (returning hq) w _ _ np EventType.Error [] h]
    simp [startWatchingNamespace]

/-- C3 as stated fails: an error event on the pod channel whose payload is a
status record (not a pod record) makes the type assertion fail; the pod handler
is not invoked, the loop ends there and the next event stays pending. -/
theorem status_payload_on_pod_channel_panics :
    (startWatchingNamespace { namespaceName := "ns1" }
        (returning countingPodHandler) (returning countingPolicyHandler) 0
        [Signal.podResult { Typ := EventType.Error, Obj := Object.other "*unversioned.Status" },
          Signal.podResult { Typ := EventType.Added, Obj := Object.pod "P1" }]).exit =
        Exit.panicked ∧
      calls (startWatchingNamespace { namespaceName := "ns1" }
        (returning countingPodHandler) (returning countingPolicyHandler) 0
        [Signal.podResult { Typ := EventType.Error, Obj := Object.other "*unversioned.Status" },
          Signal.podResult { Typ := EventType.Added, Obj := Object.pod "P1" }]).steps = [] ∧
      (startWatchingNamespace { namespaceName := "ns1" }
        (returning countingPodHandler) (returning countingPolicyHandler) 0
        [Signal.podResult { Typ := EventType.Error, Obj := Object.other "*unversioned.Status" },
          Signal.podResult { Typ := EventType.Added, Obj := Object.pod "P1" }]).pending =
        [Signal.podResult { Typ := EventType.Added, Obj := Object.pod "P1" }] := by
  simp [startWatchingNamespace, calls]

/-- C4: the loop never examines what a handler returns: two pairs of handlers
that differ only in the errors they return give the same run (the same steps
with the same handler invocations, the same end, the same pending signals);
in particular, with handlers that return a failure at every call, every event
of a trace that ends in a stop is still dispatched and the loop returns at the
stop. -/
theorem startWatchingNamespace_ignores_outcome (n : NamespaceWatcher)
    (hp hp2 : PodHandler W Pod) (hq hq2 : PolicyHandler W NetworkPolicy)
    (hpe : ∀ w p t, (hp w p t).map Prod.fst = (hp2 w p t).map Prod.fst)
    (hqe : ∀ w np t, (hq w np t).map Prod.fst = (hq2 w np t).map Prod.fst)
    (t : List (Signal Pod NetworkPolicy)) (w : W) :
    startWatchingNamespace n hp hq w t = startWatchingNamespace n hp2 hq2 w t ∧
      (∀ (tp : W → Pod → EventType → W × Option String)
        (tq : W → NetworkPolicy → EventType → W × Option String)
        (failure : String) (ts : List (KindedEvent Pod NetworkPolicy)) (v : Bool),
        calls (startWatchingNamespace n
            (returning fun w p t => ((tp w p t).1, some failure))
            (returning fun w np t => ((tq w np t).1, some failure)) w
            (ts.map KindedEvent.signal ++ [Signal.namespaceStop v])).steps =
            ts.map KindedEvent.call ∧
          (startWatchingNamespace n
            (returning fun w p t => ((tp w p t).1, some failure))
            (returning fun w np t => ((tq w np t).1, some failure)) w
            (ts.map KindedEvent.signal ++ [Signal.namespaceStop v])).exit = Exit.returned) := by
  refine ⟨start_congr n hp hp2 hq hq2 hpe hqe t w, ?_⟩
  intro tp tq failure ts v
  obtain ⟨h1, h2, -⟩ := start_kinded n (fun w p t => ((tp w p t).1, some failure))
    (fun w np t => ((tq w np t).1, some failure)) ts w v []
  exact ⟨h1, h2⟩

/-- C5: `stopWatchingNamespace` sends `true` on the pod-source stop channel,
then on the policy-source stop channel, then on the namespace stop channel.
For every behaviour of the receivers: the send on the pod-source stop channel
is always started; a send that is not taken blocks the function there, with
exactly the earlier sends completed and no later send started; each later send
is started exactly when the earlier one has completed; when the three are
taken the function has performed exactly the three sends, in that order, and
returns. The sends it starts and completes are initial parts of that sequence,
all of the value `true`, none on an event channel. -/
theorem stopWatchingNamespace_sends (taken : List Send → Send → Bool) :
    (stopWatchingNamespace taken).attempted <+:
        [{ chan := Chan.podStopChan, value := true },
          { chan := Chan.policyStopChan, value := true },
          { chan := Chan.namespaceStopChan, value := true }] ∧
      (stopWatchingNamespace taken).completed <+: (stopWatchingNamespace taken).attempted ∧
      (stopWatchingNamespace taken).attempted.length ≤
        (stopWatchingNamespace taken).completed.length + 1 ∧
      ((stopWatchingNamespace taken).returned = true ↔
        (stopWatchingNamespace taken).completed =
          [{ chan := Chan.podStopChan, value := true },
            { chan := Chan.policyStopChan, value := true },
            { chan := Chan.namespaceStopChan, value := true }]) ∧
      (∀ s ∈ (stopWatchingNamespace taken).attempted,
        s.value = true ∧ s.chan ≠ Chan.podResultChan ∧ s.chan ≠ Chan.policyResultChan) ∧
      ((∀ done s, taken done s = true) →
        stopWatchingNamespace taken =
          { attempted := [{ chan := Chan.podStopChan, value := true },
              { chan := Chan.policyStopChan, value := true },
              { chan := Chan.namespaceStopChan, value := true }]
            completed := [{ chan := Chan.podStopChan, value := true },
              { chan := Chan.policyStopChan, value := true },
              { chan := Chan.namespaceStopChan, value := true }]
            returned := true }) ∧
      [{ chan := Chan.podStopChan, value := true }] <+: (stopWatchingNamespace taken).attempted ∧
      (taken [] { chan := Chan.podStopChan, value := true } = false →
        stopWatchingNamespace taken =
          { attempted := [{ chan := Chan.podStopChan, value := true }]
            completed := []
            returned := false }) ∧
      (taken [] { chan := Chan.podStopChan, value := true } = true →
        taken [{ chan := Chan.podStopChan, value := true }]
          { chan := Chan.policyStopChan, value := true } = false →
        stopWatchingNamespace taken =
          { attempted := [{ chan := Chan.podStopChan, value := true },
              { chan := Chan.policyStopChan, value := true }]
            completed := [{ chan := Chan.podStopChan, value := true }]
            returned := false }) ∧
      (taken [] { chan := Chan.podStopChan, value := true } = true →
        taken [{ chan := Chan.podStopChan, value := true }]
          { chan := Chan.policyStopChan, value := true } = true →
        taken [{ chan := Chan.podStopChan, value := true },
          { chan := Chan.policyStopChan, value := true }]
          { chan := Chan.namespaceStopChan, value := true } = false →
        stopWatchingNamespace taken =
          { attempted := [{ chan := Chan.podStopChan, value := true },
              { chan := Chan.policyStopChan, value := true },
              { chan := Chan.namespaceStopChan, value := true }]
            completed := [{ chan := Chan.podStopChan, value := true },
              { chan := Chan.policyStopChan, value := true }]
            returned := false }) ∧
      (taken [] { chan := Chan.podStopChan, value := true } = true →
        taken [{ chan := Chan.podStopChan, value := true }]
          { chan := Chan.policyStopChan, value := true } = true →
        taken [{ chan := Chan.podStopChan, value := true },
          { chan := Chan.policyStopChan, value := true }]
          { chan := Chan.namespaceStopChan, value := true } = true →
        stopWatchingNamespace taken =
          { attempted := [{ chan := Chan.podStopChan, value := true },
              { chan := Chan.policyStopChan, value := true },
              { chan := Chan.namespaceStopChan, value := true }]
            completed := [{ chan := Chan.podStopChan, value := true },
              { chan := Chan.policyStopChan, value := true },
              { chan := Chan.namespaceStopChan, value := true }]
            returned := true }) := by
  refine ⟨?_, ?_, ?_, ?_, ?_, ?_, ?_, ?_, ?_, ?_, ?_⟩
  · unfold stopWatchingNamespace
    by_cases h1 : taken [] { chan := Chan.podStopChan, value := true } = true <;>
    by_cases h2 : taken [{ chan := Chan.podStopChan, value := true }]
          { chan := Chan.policyStopChan, value := true } = true <;>
    by_cases h3 : taken [{ chan := Chan.podStopChan, value := true },
          { chan := Chan.policyStopChan, value := true }]
          { chan := Chan.namespaceStopChan, value := true } = true <;>
    simp [performSends, h1, h2, h3, List.prefix_cons_iff]
  · unfold stopWatchingNamespace
    by_cases h1 : taken [] { chan := Chan.podStopChan, value := true } = true <;>
    by_cases h2 : taken [{ chan := Chan.podStopChan, value := true }]
          { chan := Chan.policyStopChan, value := true } = true <;>
    by_cases h3 : taken [{ chan := Chan.podStopChan, value := true },
          { chan := Chan.policyStopChan, value := true }]
          { chan := Chan.namespaceStopChan, value := true } = true <;>
    simp [performSends, h1, h2, h3, List.prefix_cons_iff]
  · unfold stopWatchingNamespace
    by_cases h1 : taken [] { chan := Chan.podStopChan, value := true } = true <;>
    by_cases h2 : taken [{ chan := Chan.podStopChan, value := true }]
          { chan := Chan.policyStopChan, value := true } = true <;>
    by_cases h3 : taken [{ chan := Chan.podStopChan, value := true },
          { chan := Chan.policyStopChan, value := true }]
          { chan := Chan.namespaceStopChan, value := true } = true <;>
    simp [performSends, h1, h2, h3]
  · unfold stopWatchingNamespace
    by_cases h1 : taken [] { chan := Chan.podStopChan, value := true } = true <;>
    by_cases h2 : taken [{ chan := Chan.podStopChan, value := true }]
          { chan := Chan.policyStopChan, value := true } = true <;>
    by_cases h3 : taken [{ chan := Chan.podStopChan, value := true },
          { chan := Chan.policyStopChan, value := true }]
          { chan := Chan.namespaceStopChan, value := true } = true <;>
    simp [performSends, h1, h2, h3]
  · unfold stopWatchingNamespace
    by_cases h1 : taken [] { chan := Chan.podStopChan, value := true } = true <;>
    by_cases h2 : taken [{ chan := Chan.podStopChan, value := true }]
          { chan := Chan.policyStopChan, value := true } = true <;>
    by_cases h3 : taken [{ chan := Chan.podStopChan, value := true },
          { chan := Chan.policyStopChan, value := true }]
          { chan := Chan.namespaceStopChan, value := true } = true <;>
    simp [performSends, h1, h2, h3]
  · intro hall
    simp [stopWatchingNamespace, performSends, hall]
  · unfold stopWatchingNamespace
    by_cases h1 : taken [] { chan := Chan.podStopChan, value := true } = true <;>
    by_cases h2 : taken [{ chan := Chan.podStopChan, value := true }]
          { chan := Chan.policyStopChan, value := true } = true <;>
    by_cases h3 : taken [{ chan := Chan.podStopChan, value := true },
          { chan := Chan.policyStopChan, value := true }]
          { chan := Chan.namespaceStopChan, value := true } = true <;>
    simp [performSends, h1, h2, h3, List.prefix_cons_iff]
  · intro h1
    simp [stopWatchingNamespace, performSends, h1]
  · intro h1 h2
    simp [stopWatchingNamespace, performSends, h1, h2]
  · intro h1 h2 h3
    simp [stopWatchingNamespace, performSends, h1, h2, h3]
  · intro h1 h2 h3
    simp [stopWatchingNamespace, performSends, h1, h2, h3]

theorem callOf_podResult (req : Event Pod NetworkPolicy) (c : Call Pod NetworkPolicy)
    (h : callOf (Signal.podResult req) = some c) :
    ∃ p, req.Obj = Object.pod p ∧ c = Call.pod p req.Typ := by
  obtain ⟨ty, ob⟩ := req
  cases ob with
  | pod p => exact ⟨p, rfl, by simpa [callOf] using h.symm⟩
  | networkPolicy np => simp [callOf] at h
  | other nm => simp [callOf] at h

theorem callOf_policyResult (req : Event Pod NetworkPolicy) (c : Call Pod NetworkPolicy)
    (h : callOf (Signal.policyResult req) = some c) :
    ∃ np, req.Obj = Object.networkPolicy np ∧ c = Call.policy np req.Typ := by
  obtain ⟨ty, ob⟩ := req
  cases ob with
  | networkPolicy np => exact ⟨np, rfl, by simpa [callOf] using h.symm⟩
  | pod p => simp [callOf] at h
  | other nm => simp [callOf] at h

theorem first_call (n : NamespaceWatcher) (hp : PodHandler W Pod)
    (hq : PolicyHandler W NetworkPolicy) (s : Signal Pod NetworkPolicy)
    (rest : List (Signal Pod NetworkPolicy)) (w : W) (c : Call Pod NetworkPolicy)
    (h : (calls (startWatchingNamespace n hp hq w (s :: rest)).steps).head? = some c) :
    callOf s = some c := by
  have hpre := calls_follow_channels n hp hq (s :: rest) w
  cases hc : calls (startWatchingNamespace n hp hq w (s :: rest)).steps with
  | nil => simp [hc] at h
  | cons c2 l =>
    have e : c2 = c := by simpa [hc] using h
    subst e
    rw [hc] at hpre
    cases s with
    | namespaceStop u => simp [beforeStop, Signal.isStop] at hpre
    | podResult req =>
      simp [beforeStop, Signal.isStop, List.takeWhile_cons, List.cons_prefix_cons] at hpre
      exact hpre.1.symm
    | policyResult req =>
      simp [beforeStop, Signal.isStop, List.takeWhile_cons, List.cons_prefix_cons] at hpre
      exact hpre.1.symm

/-- A handler whose every call returns never leaves the loop blocked. -/
theorem start_returning_exit (n : NamespaceWatcher)
    (tp : W → Pod → EventType → W × Option String)
    (tq : W → NetworkPolicy → EventType → W × Option String)
    (t : List (Signal Pod NetworkPolicy)) (w : W) :
    (startWatchingNamespace n (returning tp) (returning tq) w t).exit ≠
      Exit.handlerBlocked := by
  induction t generalizing w with
  | nil => simp [startWatchingNamespace]
  | cons s t ih =>
    cases s with
    | namespaceStop u => simp [startWatchingNamespace]
    | podResult req =>
      obtain ⟨ty, ob⟩ := req
      cases ob with
      | pod p =>
        have h : returning tp w p ty = some ((tp w p ty).1, (tp w p ty).2) := rfl
        rw [start_pod n (returning tp) (returning tq) w _ _ p ty t h]
        simpa using ih (tp w p ty).1
      | networkPolicy np => simp [startWatchingNamespace]
      | other nm => simp [startWatchingNamespace]
    | policyResult req =>
      obtain ⟨ty, ob⟩ := req
      cases ob with
      | networkPolicy np =>
        have h : returning tq w np ty = some ((tq w np ty).1, (tq w np ty).2) := rfl
        rw [start_policy n (returning tp) (returning tq) w _ _ np ty t h]
        simpa using ih (tq w np ty).1
      | pod p => simp [startWatchingNamespace]
      | other nm => simp [startWatchingNamespace]

/-- A pod record received on the pod channel is handed to the pod handler,
whatever the handlers do. -/
theorem first_call_pod (n : NamespaceWatcher) (hp : PodHandler W Pod)
    (hq : PolicyHandler W NetworkPolicy) (p : Pod) (ty : EventType)
    (rest : List (Signal Pod NetworkPolicy)) (w : W) :
    ∃ l, calls (startWatchingNamespace n hp hq w
        (Signal.podResult { Typ := ty, Obj := Object.pod p } :: rest)).steps =
      Call.pod p ty :: l := by
  cases h : hp w p ty with
  | none => exact ⟨[], by simp [startWatchingNamespace, h, calls]⟩
  | some r =>
    obtain ⟨w1, o⟩ := r
    rw [start_pod n hp hq w w1 o p ty rest h]
    exact ⟨calls (startWatchingNamespace n hp hq w1 rest).steps, by
      simp [calls_append, calls]⟩

/-- A network-policy record received on the policy channel is handed to the
policy handler, whatever the handlers do. -/
theorem first_call_policy (n : NamespaceWatcher) (hp : PodHandler W Pod)
    (hq : PolicyHandler W NetworkPolicy) (np : NetworkPolicy) (ty : EventType)
    (rest : List (Signal Pod NetworkPolicy)) (w : W) :
    ∃ l, calls (startWatchingNamespace n hp hq w
        (Signal.policyResult { Typ := ty, Obj := Object.networkPolicy np } :: rest)).steps =
      Call.policy np ty :: l := by
  cases h : hq w np ty with
  | none => exact ⟨[], by simp [startWatchingNamespace, h, calls]⟩
  | some r =>
    obtain ⟨w1, o⟩ := r
    rw [start_policy n hp hq w w1 o np ty rest h]
    exact ⟨calls (startWatchingNamespace n hp hq w1 rest).steps, by
      simp [calls_append, calls]⟩

/-- C8: the handler is chosen from the channel that fired alone. For all
handlers, a pod record received on the pod channel is handed to the pod
handler with the change kind of the event, and a network-policy record received
on the policy channel to the policy handler, as the first signal of a trace
and after any signals the loop has dispatched; no event received on the pod
channel leads to a policy-handler invocation, and conversely; the invocations
of a run are, in order, those of the channels of the signals received. When
the payload of every event is of the resource kind of its channel, no type
assertion fails, whatever the change kinds, and with handlers whose calls
return every event before the stop is dispatched to the handler of its
channel, one invocation per event. -/
theorem startWatchingNamespace_routes_by_channel (n : NamespaceWatcher)
    (hp : PodHandler W Pod) (hq : PolicyHandler W NetworkPolicy)
    (t : List (Signal Pod NetworkPolicy)) (w : W) :
    (calls (startWatchingNamespace n hp hq w t).steps).map some <+:
        (beforeStop t).map callOf ∧
      (∀ (req : Event Pod NetworkPolicy) (c : Call Pod NetworkPolicy),
        (calls (startWatchingNamespace n hp hq w (Signal.podResult req :: t)).steps).head? =
            some c →
          c.isPod = true ∧ ∃ p, req.Obj = Object.pod p ∧ c = Call.pod p req.Typ) ∧
      (∀ (req : Event Pod NetworkPolicy) (c : Call Pod NetworkPolicy),
        (calls (startWatchingNamespace n hp hq w (Signal.policyResult req :: t)).steps).head? =
            some c →
          c.isPod = false ∧
            ∃ np, req.Obj = Object.networkPolicy np ∧ c = Call.policy np req.Typ) ∧
      ((∀ s ∈ t, s.kindMatches = true) →
        (startWatchingNamespace n hp hq w t).exit ≠ Exit.panicked ∧
          ((startWatchingNamespace n hp hq w t).exit ≠ Exit.handlerBlocked →
            (calls (startWatchingNamespace n hp hq w t).steps).map some =
              (beforeStop t).map callOf)) ∧
      (∀ (p : Pod) (ty : EventType),
        (calls (startWatchingNamespace n hp hq w
          (Signal.podResult { Typ := ty, Obj := Object.pod p } :: t)).steps).head? =
            some (Call.pod p ty)) ∧
      (∀ (np : NetworkPolicy) (ty : EventType),
        (calls (startWatchingNamespace n hp hq w
          (Signal.policyResult { Typ := ty, Obj := Object.networkPolicy np } :: t)).steps).head? =
            some (Call.policy np ty)) ∧
      (∀ (p : Pod) (ty : EventType) (rest : List (Signal Pod NetworkPolicy)),
        (startWatchingNamespace n hp hq w t).exit = Exit.awaiting →
        ∃ l, calls (startWatchingNamespace n hp hq w
            (t ++ Signal.podResult { Typ := ty, Obj := Object.pod p } :: rest)).steps =
          calls (startWatchingNamespace n hp hq w t).steps ++ Call.pod p ty :: l) ∧
      (∀ (np : NetworkPolicy) (ty : EventType) (rest : List (Signal Pod NetworkPolicy)),
        (startWatchingNamespace n hp hq w t).exit = Exit.awaiting →
        ∃ l, calls (startWatchingNamespace n hp hq w
            (t ++ Signal.policyResult { Typ := ty, Obj := Object.networkPolicy np } ::
              rest)).steps =
          calls (startWatchingNamespace n hp hq w t).steps ++ Call.policy np ty :: l) ∧
      (∀ (tp : W → Pod → EventType → W × Option String)
        (tq : W → NetworkPolicy → EventType → W × Option String),
        (∀ s ∈ t, s.kindMatches = true) →
        (calls (startWatchingNamespace n (returning tp) (returning tq) w t).steps).map some =
            (beforeStop t).map callOf ∧
          (calls (startWatchingNamespace n (returning tp) (returning tq) w t).steps).length =
            (beforeStop t).length ∧
          (startWatchingNamespace n (returning tp) (returning tq) w t).exit ≠ Exit.panicked ∧
          (startWatchingNamespace n (returning tp) (returning tq) w t).exit ≠
            Exit.handlerBlocked) := by
  refine ⟨calls_follow_channels n hp hq t w, ?_, ?_, ?_, ?_, ?_, ?_, ?_, ?_⟩
  · intro req c h
    obtain ⟨p, h1, h2⟩ := callOf_podResult req c (first_call n hp hq _ t w c h)
    exact ⟨by rw [h2]; rfl, p, h1, h2⟩
  · intro req c h
    obtain ⟨np, h1, h2⟩ := callOf_policyResult req c (first_call n hp hq _ t w c h)
    exact ⟨by rw [h2]; rfl, np, h1, h2⟩
  · intro hk
    exact start_kindMatches n hp hq t hk w
  · intro p ty
    obtain ⟨l, hl⟩ := first_call_pod n hp hq p ty t w
    rw [hl]
    rfl
  · intro np ty
    obtain ⟨l, hl⟩ := first_call_policy n hp hq np ty t w
    rw [hl]
    rfl
  · intro p ty rest ha
    obtain ⟨l, hl⟩ := first_call_pod n hp hq p ty rest (startWatchingNamespace n hp hq w t).world
    rw [start_append n hp hq t _ w ha]
    exact ⟨l, by simp [calls_append, hl]⟩
  · intro np ty rest ha
    obtain ⟨l, hl⟩ :=
      first_call_policy n hp hq np ty rest (startWatchingNamespace n hp hq w t).world
    rw [start_append n hp hq t _ w ha]
    exact ⟨l, by simp [calls_append, hl]⟩
  · intro tp tq hk
    have hb := start_returning_exit n tp tq t w
    obtain ⟨h1, h2⟩ := start_kindMatches n (returning tp) (returning tq) t hk w
    have he := h2 hb
    refine ⟨he, ?_, h1, hb⟩
    have := congrArg List.length he
    simpa using this

/-- C9: one handler invocation is in flight at a time: the steps of every run
pass the monitor that rejects a signal received, or a handler invoked, while a
handler call has not returned; and a handler call that never returns ends the
run there: no later signal of the trace, event or stop, is received. -/
theorem startWatchingNamespace_one_in_flight (n : NamespaceWatcher)
    (hp : PodHandler W Pod) (hq : PolicyHandler W NetworkPolicy)
    (t : List (Signal Pod NetworkPolicy)) (w : W) :
    (∃ cur, oneInFlight none (startWatchingNamespace n hp hq w t).steps = some cur ∧
      (cur.isSome = true ↔
        (startWatchingNamespace n hp hq w t).exit = Exit.handlerBlocked)) ∧
    (∀ (p : Pod) (ty : EventType) (rest : List (Signal Pod NetworkPolicy)),
      (startWatchingNamespace n hp hq w t).exit = Exit.awaiting →
      hp (startWatchingNamespace n hp hq w t).world p ty = none →
      startWatchingNamespace n hp hq w
          (t ++ Signal.podResult { Typ := ty, Obj := Object.pod p } :: rest) =
        { world := (startWatchingNamespace n hp hq w t).world
          steps := (startWatchingNamespace n hp hq w t).steps ++
            [Step.received (Signal.podResult { Typ := ty, Obj := Object.pod p }),
              Step.glog ("Processing PodEvent for Namespace: " ++ n.namespaceName),
              Step.invoked (Call.pod p ty)]
          exit := Exit.handlerBlocked
          pending := rest }) ∧
    (∀ (np : NetworkPolicy) (ty : EventType) (rest : List (Signal Pod NetworkPolicy)),
      (startWatchingNamespace n hp hq w t).exit = Exit.awaiting →
      hq (startWatchingNamespace n hp hq w t).world np ty = none →
      startWatchingNamespace n hp hq w
          (t ++ Signal.policyResult { Typ := ty, Obj := Object.networkPolicy np } :: rest) =
        { world := (startWatchingNamespace n hp hq w t).world
          steps := (startWatchingNamespace n hp hq w t).steps ++
            [Step.received (Signal.policyResult { Typ := ty, Obj := Object.networkPolicy np }),
              Step.glog ("Processing PolicyEvent for Namespace: " ++ n.namespaceName),
              Step.invoked (Call.policy np ty)]
          exit := Exit.handlerBlocked
          pending := rest }) := by
  refine ⟨start_oneInFlight n hp hq t w, ?_, ?_⟩
  · intro p ty rest ha hb
    rw [start_append n hp hq t _ w ha]
    simp [startWatchingNamespace, hb, Run.after]
  · intro np ty rest ha hb
    rw [start_append n hp hq t _ w ha]
    simp [startWatchingNamespace, hb, Run.after]

/-! ### The theorems at concrete inputs -/

/-- C1 at the scenario of the specification. -/
theorem startWatchingNamespace_dispatches_in_order_witness :
    calls (startWatchingNamespace { namespaceName := "ns1" } (returning countingPodHandler)
        (returning failingPolicyHandler) 0
        ([KindedEvent.pod "P1" EventType.Added, KindedEvent.policy "Net1" EventType.Added].map
          KindedEvent.signal ++ [Signal.namespaceStop true])).steps =
      [Call.pod "P1" EventType.Added, Call.policy "Net1" EventType.Added] :=
  (startWatchingNamespace_dispatches_in_order { namespaceName := "ns1" } countingPodHandler
    failingPolicyHandler
    [KindedEvent.pod "P1" EventType.Added, KindedEvent.policy "Net1" EventType.Added] 0
    true).2.1

/-- C2 at the scenario trace: the event after the stop stays pending. -/
theorem startWatchingNamespace_stop_immediate_witness :
    [Signal.podResult { Typ := EventType.Deleted, Obj := Object.pod "P1" }] <:+
      (startWatchingNamespace { namespaceName := "ns1" } (returning countingPodHandler)
        (returning failingPolicyHandler) 0
        ([Signal.podResult { Typ := EventType.Added, Obj := Object.pod "P1" },
          Signal.policyResult { Typ := EventType.Added, Obj := Object.networkPolicy "Net1" }] ++
          Signal.namespaceStop true ::
            [Signal.podResult { Typ := EventType.Deleted, Obj := Object.pod "P1" }])).pending :=
  (startWatchingNamespace_stop_immediate { namespaceName := "ns1" }
    (returning countingPodHandler) (returning failingPolicyHandler)
    [Signal.podResult { Typ := EventType.Added, Obj := Object.pod "P1" },
      Signal.policyResult { Typ := EventType.Added, Obj := Object.networkPolicy "Net1" }]
    [Signal.podResult { Typ := EventType.Deleted, Obj := Object.pod "P1" }] true 0).2.2.2.2.1

/-- C3, amended, at an error event carrying the pod record P1. -/
theorem startWatchingNamespace_error_event_witness :
    (startWatchingNamespace { namespaceName := "ns1" } (returning countingPodHandler)
        (returning countingPolicyHandler) 0
        [Signal.podResult { Typ := EventType.Error, Obj := Object.pod "P1" }]).exit =
      Exit.awaiting :=
  ((startWatchingNamespace_error_event { namespaceName := "ns1" } countingPodHandler
    countingPolicyHandler 0 []).1 "P1").2

/-- C4 at the scenario trace, with handlers that succeed and handlers that
fail. -/
theorem startWatchingNamespace_ignores_outcome_witness :
    (∀ w p t, ((returning countingPodHandler : PodHandler Nat String) w p t).map Prod.fst =
        ((returning failingPodHandler : PodHandler Nat String) w p t).map Prod.fst) ∧
      (∀ w np t,
        ((returning countingPolicyHandler : PolicyHandler Nat String) w np t).map Prod.fst =
          ((returning failingPolicyHandler : PolicyHandler Nat String) w np t).map Prod.fst) ∧
      startWatchingNamespace { namespaceName := "ns1" } (returning countingPodHandler)
          (returning countingPolicyHandler) 0 scenarioTrace =
        startWatchingNamespace { namespaceName := "ns1" } (returning failingPodHandler)
          (returning failingPolicyHandler) 0 scenarioTrace :=
  ⟨fun _ _ _ => rfl, fun _ _ _ => rfl,
    (startWatchingNamespace_ignores_outcome { namespaceName := "ns1" }
      (returning countingPodHandler) (returning failingPodHandler)
      (returning countingPolicyHandler) (returning failingPolicyHandler)
      (fun _ _ _ => rfl) (fun _ _ _ => rfl) scenarioTrace 0).1⟩

/-- C5 at two receivers: when every send is taken the three sends are
performed, in order; when only the pod source receives, the send on the
policy-source stop channel blocks and nothing is sent on the namespace stop
channel. -/
theorem stopWatchingNamespace_sends_witness :
    stopWatchingNamespace (fun _ _ => true) =
        { attempted := [{ chan := Chan.podStopChan, value := true },
            { chan := Chan.policyStopChan, value := true },
            { chan := Chan.namespaceStopChan, value := true }]
          completed := [{ chan := Chan.podStopChan, value := true },
            { chan := Chan.policyStopChan, value := true },
            { chan := Chan.namespaceStopChan, value := true }]
          returned := true } ∧
      stopWatchingNamespace (fun done _ => decide (done.length < 1)) =
        { attempted := [{ chan := Chan.podStopChan, value := true },
            { chan := Chan.policyStopChan, value := true }]
          completed := [{ chan := Chan.podStopChan, value := true }]
          returned := false } :=
  ⟨(stopWatchingNamespace_sends (fun _ _ => true)).2.2.2.2.2.2.2.2.2.2 rfl rfl rfl,
    (stopWatchingNamespace_sends
      (fun done _ => decide (done.length < 1))).2.2.2.2.2.2.2.2.1 rfl rfl⟩

/-- C8 at the scenario trace: every payload matches its channel, the pod event
goes to the pod handler and the policy event to the policy handler, one
invocation each, and no type assertion fails. -/
theorem startWatchingNamespace_routes_by_channel_witness :
    (∀ s ∈ scenarioTrace, s.kindMatches = true) ∧
      (calls (startWatchingNamespace { namespaceName := "ns1" } (returning countingPodHandler)
        (returning failingPolicyHandler) 0 scenarioTrace).steps).map some =
        [some (Call.pod "P1" EventType.Added), some (Call.policy "Net1" EventType.Added)] ∧
      (calls (startWatchingNamespace { namespaceName := "ns1" } (returning countingPodHandler)
        (returning failingPolicyHandler) 0 scenarioTrace).steps).length = 2 ∧
      (startWatchingNamespace { namespaceName := "ns1" } (returning countingPodHandler)
        (returning failingPolicyHandler) 0 scenarioTrace).exit ≠ Exit.panicked :=
  ⟨by decide,
    ((startWatchingNamespace_routes_by_channel { namespaceName := "ns1" }
      (returning countingPodHandler) (returning failingPolicyHandler) scenarioTrace
      0).2.2.2.2.2.2.2.2 countingPodHandler failingPolicyHandler (by decide)).1,
    ((startWatchingNamespace_routes_by_channel { namespaceName := "ns1" }
      (returning countingPodHandler) (returning failingPolicyHandler) scenarioTrace
      0).2.2.2.2.2.2.2.2 countingPodHandler failingPolicyHandler (by decide)).2.1,
    ((startWatchingNamespace_routes_by_channel { namespaceName := "ns1" }
      (returning countingPodHandler) (returning failingPolicyHandler) scenarioTrace
      0).2.2.2.2.2.2.2.2 countingPodHandler failingPolicyHandler (by decide)).2.2.1⟩

/-- C9 at a pod handler that never returns: after one policy event, the pod
event is handed to the handler and neither the later policy event nor the stop
is received. -/
theorem startWatchingNamespace_one_in_flight_witness :
    (startWatchingNamespace { namespaceName := "ns1" } blockingPodHandler
        (returning countingPolicyHandler) 0
        [Signal.policyResult { Typ := EventType.Added, Obj := Object.networkPolicy "Net1" }]).exit =
        Exit.awaiting ∧
      blockingPodHandler
        (startWatchingNamespace { namespaceName := "ns1" } blockingPodHandler
          (returning countingPolicyHandler) 0
          [Signal.policyResult
            { Typ := EventType.Added, Obj := Object.networkPolicy "Net1" }]).world
        "P1" EventType.Modified = none ∧
      (startWatchingNamespace { namespaceName := "ns1" } blockingPodHandler
        (returning countingPolicyHandler) 0
        ([Signal.policyResult { Typ := EventType.Added, Obj := Object.networkPolicy "Net1" }] ++
          Signal.podResult { Typ := EventType.Modified, Obj := Object.pod "P1" } ::
            [Signal.policyResult
                { Typ := EventType.Deleted, Obj := Object.networkPolicy "Net1" },
              Signal.namespaceStop true])).pending =
        [Signal.policyResult { Typ := EventType.Deleted, Obj := Object.networkPolicy "Net1" },
          Signal.namespaceStop true] :=
  ⟨by decide, rfl,
    congrArg Run.pending
      ((startWatchingNamespace_one_in_flight { namespaceName := "ns1" } blockingPodHandler
        (returning countingPolicyHandler)
        [Signal.policyResult { Typ := EventType.Added, Obj := Object.networkPolicy "Net1" }]
        0).2.1 "P1" EventType.Modified
        [Signal.policyResult { Typ := EventType.Deleted, Obj := Object.networkPolicy "Net1" },
          Signal.namespaceStop true] (by decide) rfl)⟩

end Resolver

namespace Config

/-- C7 at the networks of the sample configuration: the two fields are
returned, and `validateConfig` stores them. -/
theorem parseTriremeNets_spec_witness :
    parseTriremeNets sampleParseCIDR "10.0.0.0/8  172.17.0.0/16" =
        Except.ok ["10.0.0.0/8", "172.17.0.0/16"] ∧
      (validateConfig sampleEnv sampleParseCIDR sampleConfig).1.ParsedTriremeNetworks =
        ["10.0.0.0/8", "172.17.0.0/16"] :=
  ⟨rfl,
    ((parseTriremeNets_spec sampleParseCIDR "10.0.0.0/8  172.17.0.0/16").2.2.2.2.1 sampleEnv
      sampleConfig (by decide) (by decide) (by decide) (by decide)
      ["10.0.0.0/8", "172.17.0.0/16"] rfl).2⟩

/-- C10 at the sample configuration outside a cluster: the kubeconfig path is
inferred from `HOME`. -/
theorem validateConfig_frame_witness :
    sampleEnv "KUBERNETES_PORT" = "" ∧ sampleConfig.KubeconfigPath = "" ∧
      (validateConfig sampleEnv sampleParseCIDR sampleConfig).1.KubeconfigPath =
        sampleEnv "HOME" ++ "/.kube/config" :=
  ⟨by decide, by decide,
    (validateConfig_frame sampleEnv sampleParseCIDR sampleConfig).2.1 (by decide) (by decide)⟩

end Config

end Trireme
